import Mathlib

/-!
# DSS composition feasibility (hwc/dsscomp.c)

A shallow embedding of the functions of `hwc/dsscomp.c`: the decision
functions `can_dss_scale`, `can_dss_render_all_layers`, `can_dss_render_layer`
and `decide_dss_wb_capture_mode`, and the state changing functions
`setup_dsscomp_manager`, `close_dsscomp` and `get_dsscomp_display_mode_db`.

Conventions of the embedding.

* `uint32_t` values are natural numbers; every product the C code forms in
  32-bit unsigned arithmetic is reduced modulo `UINT32_MOD`.
* A C operation without a defined result (division by zero, dereferencing a
  display slot that is empty or out of range) makes the embedded function
  return `none`; `some b` is a normal return of `b`.
* A function that changes the device state returns the new state.
-/

namespace hwc

/-! ## Machine arithmetic -/

/-- The modulus of `uint32_t` arithmetic, `2^32`. -/
def UINT32_MOD : Nat := 4294967296

/-- Product of two `uint32_t` operands, as C computes it. -/
def mul32 (a b : Nat) : Nat := (a * b) % UINT32_MOD

/-- Unsigned C division; dividing by zero has no defined result. -/
def udiv (a b : Nat) : Option Nat :=
  if b = 0 then none else some (a / b)

/-- Division rounded up, `ceilDiv` in the spec's words, for a non-zero divisor. -/
def ceilDiv (a b : Nat) : Nat := (a + b - 1) / b

/-- Modelled from the spec: the macro `DIV_ROUND_UP` of `utils.h`, a header
that is not among the sources. The spec (section 4.2, step 1) calls it
`ceilDiv`, the division rounded up; like every division it has no result for
a zero divisor. -/
def DIV_ROUND_UP (a b : Nat) : Option Nat :=
  if b = 0 then none else some (ceilDiv a b)

/-! ## Data model (display.h, hwc_dev.h and the fields dsscomp.c reads) -/

/-- The fields of `struct dsscomp_platform_info` that `dsscomp.c` reads. The
struct is declared in the kernel header `video/dsscomp.h`; its fields are
unsigned integers. -/
structure dsscomp_platform_info where
  max_xdecim_2d : Nat := 0
  max_ydecim_2d : Nat := 0
  max_xdecim_1d : Nat := 0
  max_ydecim_1d : Nat := 0
  fclk : Nat := 0
  min_width : Nat := 0
  max_downscale : Nat := 0
  integer_scale_ratio_limit : Nat := 0

/-- Modelled from the spec: the channel identity `OMAP_DSS_CHANNEL_DIGIT`
(the "digital/TV" channel of section 3), an enumerator of the kernel headers
that are not among the sources. Only equality with it is ever tested. -/
def OMAP_DSS_CHANNEL_DIGIT : Nat := 1

/-- The field of `struct dsscomp_display_info` that `can_dss_scale` reads. -/
structure dsscomp_display_info where
  channel : Nat := 0

/-- The per-frame layer statistics `layer_statistics_t`, with the fields that
`can_dss_render_all_layers` reads; all are unsigned counts, `composable_mask`
is a bit mask with one bit per layer. -/
structure layer_statistics where
  count : Nat := 0
  composable : Nat := 0
  composable_mask : Nat := 0
  scaled : Nat := 0
  nv12 : Nat := 0
  rgb : Nat := 0
  bgr : Nat := 0
  mem1d_total : Nat := 0

/-- A manager descriptor, `struct dsscomp_mgr_info` of the kernel header, with
the three fields `append_manager` writes. -/
structure dsscomp_mgr_info where
  ix : Nat := 0
  alpha_blending : Nat := 0
  swap_rb : Bool := false
deriving DecidableEq

/-- The driver request `struct dsscomp_setup_dispc_data` of the kernel header,
with the fields `append_manager` uses: the array `mgrs`, as the map from an
index to the descriptor stored there, and the count `num_mgrs`. The declared
length of the array is in the kernel header, which is not among the sources;
the spec (sections 3 and 6) calls it an ordered list. -/
structure dsscomp_setup_dispc_data where
  num_mgrs : Nat := 0
  mgrs : Nat → dsscomp_mgr_info := fun _ => {}

/-- The kernel data `struct omap_hwc_data` of a composition, with the request
that `dsscomp.c` fills. -/
structure omap_hwc_data where
  dsscomp_data : dsscomp_setup_dispc_data := {}

/-- The resource ledger `composition_t` (display.h), with the fields that
`dsscomp.c` reads. -/
structure composition where
  use_sgx : Bool := false
  swap_rb : Bool := false
  avail_ovls : Nat := 0
  scaling_ovls : Nat := 0
  tiler1d_slot_size : Nat := 0
  comp_data : omap_hwc_data := {}

/-- The bit fields `rotation` and `hflip` of `display_transform_t` (display.h). -/
structure display_transform where
  rotation : Nat := 0
  hflip : Nat := 0

/-- A display, `display_t` (display.h). -/
structure display where
  mgr_ix : Nat := 0
  layer_stats : layer_statistics := {}
  composition : composition := {}
  transform : display_transform := {}

/-- The driver session `hwc_dev->dsscomp`. -/
structure dsscomp_state where
  fd : Int := 0
  limits : dsscomp_platform_info := {}
  last_ext_ovls : Int := 0

/-- Number of display slots (display.h). -/
def MAX_DISPLAYS : Nat := 3

/-- Index of the primary display, `HWC_DISPLAY_PRIMARY` of the Android
hardware composer headers. -/
def HWC_DISPLAY_PRIMARY : Int := 0

/-- The device state `omap_hwc_device_t`, with the fields `dsscomp.c` reads.
`displays` is the slot table `hwc_dev->displays[]` (`none` is a NULL slot).

The last three fields carry what the queries of `display.c` answer on this
state: that file is not among the sources, so the answers are part of the
state instead of being computed from it. -/
structure omap_hwc_device where
  flags_rgb_order : Int := 0
  flags_nv12_only : Int := 0
  force_sgx : Int := 0
  dsscomp : dsscomp_state := {}
  displays : Nat → Option display := fun _ => none
  external_display_id : Int := -1
  hdmi_display : Int → Bool := fun _ => false
  external_display_mirroring : Int → Bool := fun _ => false

/-- Modelled from the spec: `get_external_display_id` of `display.c`, which is
not among the sources; section 6 describes it as "an external display index
(or none) resolvable from the current attach state". A negative value is
"none". -/
def get_external_display_id (hwc_dev : omap_hwc_device) : Int :=
  hwc_dev.external_display_id

/-- Modelled from the spec: `is_hdmi_display` of `display.c`, which is not
among the sources: whether display `disp` is an HDMI/TV output (the display
type of section 3). -/
def is_hdmi_display (hwc_dev : omap_hwc_device) (disp : Int) : Bool :=
  hwc_dev.hdmi_display disp

/-- Modelled from the spec: `is_external_display_mirroring` of `display.c`,
which is not among the sources: whether `disp` is an external display that
currently mirrors the primary (the mirroring state of section 3). -/
def is_external_display_mirroring (hwc_dev : omap_hwc_device) (disp : Int) : Bool :=
  hwc_dev.external_display_mirroring disp

/-- Dereferencing `hwc_dev->displays[disp]`: there is a display to read only
when `disp` is a valid slot index and the slot is not NULL. -/
def display_at (hwc_dev : omap_hwc_device) (disp : Int) : Option display :=
  if 0 ≤ disp ∧ disp < (MAX_DISPLAYS : Int) then hwc_dev.displays disp.toNat else none

/-! ## Scaling feasibility (`can_dss_scale`) -/

/-- The horizontal decimation factor selected by `is_2d`
(`is_2d ? limits->max_xdecim_2d : limits->max_xdecim_1d`). -/
def xdecim_of (limits : dsscomp_platform_info) (is_2d : Bool) : Nat :=
  if is_2d then limits.max_xdecim_2d else limits.max_xdecim_1d

/-- The vertical decimation factor selected by `is_2d`
(`is_2d ? limits->max_ydecim_2d : limits->max_ydecim_1d`). -/
def ydecim_of (limits : dsscomp_platform_info) (is_2d : Bool) : Nat :=
  if is_2d then limits.max_ydecim_2d else limits.max_ydecim_1d

/-- The pipeline clock that `can_dss_scale` finally compares with: `fclk`
starts as `limits->fclk / 1000`, is clamped to `pclk * max_downscale`
(a 32-bit product) when larger, and is rounded down to a multiple of `pclk`
when `src_w < integer_scale_ratio_limit`. Only evaluated with `pclk != 0`. -/
def effective_fclk (limits : dsscomp_platform_info) (src_w pclk : Nat) : Nat :=
  let fclk := limits.fclk / 1000
  let fclk := if fclk > mul32 pclk limits.max_downscale
              then mul32 pclk limits.max_downscale else fclk
  if src_w < limits.integer_scale_ratio_limit then fclk / pclk * pclk else fclk

/-- The function `can_dss_scale` of dsscomp.c. -/
def can_dss_scale (hwc_dev : omap_hwc_device) (src_w src_h dst_w dst_h : Nat)
    (is_2d : Bool) (dis : dsscomp_display_info) (pclk : Nat) : Option Bool :=
  let limits := hwc_dev.dsscomp.limits
  match DIV_ROUND_UP src_w (xdecim_of limits is_2d),
        DIV_ROUND_UP src_h (ydecim_of limits is_2d) with
  | some min_src_w, some min_src_h =>
    /- ERRATAs: cannot render 1-width layers on DSI video mode panels -/
    if dis.channel ≠ OMAP_DSS_CHANNEL_DIGIT ∧ dst_w < limits.min_width then
      some false
    /- limit vertical downscale well below theoretical limit -/
    else if dst_h < src_h / 4 then
      some false
    /- max downscale -/
    else if mul32 dst_h limits.max_downscale < min_src_h then
      some false
    /- for manual panels pclk is 0, and there are no pclk based scaling limits -/
    else if pclk = 0 then
      match udiv src_w limits.max_downscale with
      | none => none
      | some q => some (!decide (dst_w < q / xdecim_of limits is_2d))
    /- limit horizontal downscale well below theoretical limit -/
    else if mul32 dst_w 4 < src_w then
      some false
    /- max horizontal downscale is 4, or the fclk/pixclk -/
    else if mul32 dst_w (effective_fclk limits src_w pclk) < mul32 min_src_w pclk then
      some false
    else
      some true
  | _, _ => none

/-- The clock `E` as the specification words it, every product exact: it
starts as `fclk / 1000`, is clamped to `pclk * max_downscale` if larger, and
is rounded down to a multiple of `pclk` when `src_w` is below the
integer-scale-ratio limit. -/
def exact_fclk (limits : dsscomp_platform_info) (src_w pclk : Nat) : Nat :=
  let e := min (limits.fclk / 1000) (pclk * limits.max_downscale)
  if src_w < limits.integer_scale_ratio_limit then e / pclk * pclk else e

/-! ## Composition feasibility (`can_dss_render_all_layers`) -/

/-- The value of the `return` expression of `can_dss_render_all_layers`, once
`on_tv` and `tform` are known. -/
def render_all_conditions (hwc_dev : omap_hwc_device) (display : display)
    (on_tv tform : Bool) : Bool :=
  let layer_stats := display.layer_stats
  let comp := display.composition
  decide (hwc_dev.force_sgx = 0) &&
  /- must have at least one layer if using composition bypass to get sync object -/
  decide (layer_stats.composable ≠ 0) &&
  decide (layer_stats.composable ≤ comp.avail_ovls) &&
  decide (layer_stats.composable = layer_stats.count) &&
  decide (layer_stats.scaled ≤ comp.scaling_ovls) &&
  decide (layer_stats.nv12 ≤ comp.scaling_ovls) &&
  /- fits into TILER slot -/
  decide (layer_stats.mem1d_total ≤ comp.tiler1d_slot_size) &&
  /- we cannot clone non-NV12 transformed layers -/
  (!tform || decide (layer_stats.nv12 = layer_stats.composable)) &&
  /- HDMI cannot display BGR -/
  (decide (layer_stats.bgr = 0) || (decide (layer_stats.rgb = 0) && !on_tv) ||
    decide (hwc_dev.flags_rgb_order = 0)) &&
  /- If nv12_only flag is set DSS should only render NV12 -/
  (decide (hwc_dev.flags_nv12_only = 0) ||
    (decide (layer_stats.bgr = 0) && decide (layer_stats.rgb = 0)))

/-- The display index on which `can_dss_render_all_layers` tests mirroring:
`(disp == HWC_DISPLAY_PRIMARY) ? get_external_display_id(hwc_dev) : disp`. -/
def ext_disp_of (hwc_dev : omap_hwc_device) (disp : Int) : Int :=
  if disp = HWC_DISPLAY_PRIMARY then get_external_display_id hwc_dev else disp

/-- The function `can_dss_render_all_layers` of dsscomp.c. The display of
`disp` is read when the mirroring branch compares the masks and, otherwise,
only after `!hwc_dev->force_sgx` has held (the `&&` chain stops at its first
false operand). -/
def can_dss_render_all_layers (hwc_dev : omap_hwc_device) (disp : Int) : Option Bool :=
  let on_tv := is_hdmi_display hwc_dev disp
  let ext_disp := ext_disp_of hwc_dev disp
  if is_external_display_mirroring hwc_dev ext_disp then
    match display_at hwc_dev ext_disp, display_at hwc_dev disp with
    | some ext_display, some display =>
      let ext_composable_mask := ext_display.layer_stats.composable_mask
      /- Make sure that all layers that are composable on the primary display
         are also composable on the external. -/
      if display.layer_stats.composable_mask &&& ext_composable_mask
          ≠ display.layer_stats.composable_mask then
        some false
      else
        let clone := if disp = HWC_DISPLAY_PRIMARY then ext_disp else HWC_DISPLAY_PRIMARY
        let on_tv := if !on_tv then is_hdmi_display hwc_dev clone else on_tv
        let tform := decide (ext_display.transform.rotation ≠ 0) ||
                     decide (ext_display.transform.hflip ≠ 0)
        some (render_all_conditions hwc_dev display on_tv tform)
    | _, _ => none
  else if hwc_dev.force_sgx ≠ 0 then
    some false
  else
    match display_at hwc_dev disp with
    | some display => some (render_all_conditions hwc_dev display on_tv false)
    | none => none

/-- The device state that differs from `hwc_dev` only by the value `n` of
`composition.avail_ovls` of display `disp`. -/
def with_avail_ovls (hwc_dev : omap_hwc_device) (disp : Int) (n : Nat) : omap_hwc_device :=
  { hwc_dev with
    displays := fun i =>
      if (i : Int) = disp then
        (hwc_dev.displays i).map
          (fun d => { d with composition := { d.composition with avail_ovls := n } })
      else hwc_dev.displays i }

/-- The device state that differs from `hwc_dev` only by the value `m` of
`layer_stats.composable_mask` of display `disp`. -/
def with_composable_mask (hwc_dev : omap_hwc_device) (disp : Int) (m : Nat) :
    omap_hwc_device :=
  { hwc_dev with
    displays := fun i =>
      if (i : Int) = disp then
        (hwc_dev.displays i).map
          (fun d => { d with layer_stats := { d.layer_stats with composable_mask := m } })
      else hwc_dev.displays i }

/-! ## Layer admissibility (`can_dss_render_layer`) -/

/-- A layer, `hwc_layer_1_t`, seen through the predicates of `layer.c`, a file
that is not among the sources: what `is_composable_layer` answers for the
layer on each display of the current device state, and what `is_nv12_layer`,
`is_rgb_layer` and `is_bgr_layer` answer. -/
structure hwc_layer where
  composable : Int → Bool := fun _ => false
  nv12 : Bool := false
  rgb : Bool := false
  bgr : Bool := false

/-- Modelled from the spec: `is_composable_layer` of `layer.c`, which is not
among the sources: the "base composability test" of section 4.3 (format and
blend-mode support), an external collaborator of this core. -/
def is_composable_layer (_hwc_dev : omap_hwc_device) (disp : Int) (layer : hwc_layer) : Bool :=
  layer.composable disp

/-- Modelled from the spec: `is_nv12_layer` of `layer.c`, which is not among
the sources: the layer is in the chroma-subsampled NV12 format. -/
def is_nv12_layer (layer : hwc_layer) : Bool := layer.nv12

/-- Modelled from the spec: `is_rgb_layer` of `layer.c`, which is not among
the sources: the layer is in RGB byte order. -/
def is_rgb_layer (layer : hwc_layer) : Bool := layer.rgb

/-- Modelled from the spec: `is_bgr_layer` of `layer.c`, which is not among
the sources: the layer is in BGR byte order. -/
def is_bgr_layer (layer : hwc_layer) : Bool := layer.bgr

/-- The `return` expression of `can_dss_render_layer`, once `on_tv` and `tform`
are known. The display of `disp` is read (`comp->use_sgx`, `comp->swap_rb`)
only after the first two operands of the `&&` chain have held. -/
def render_layer_conditions (hwc_dev : omap_hwc_device) (disp : Int) (layer : hwc_layer)
    (on_tv tform : Bool) : Option Bool :=
  if !is_composable_layer hwc_dev disp layer then
    some false
  /- cannot rotate non-NV12 layers on external display -/
  else if !(!tform || is_nv12_layer layer) then
    some false
  else
    match display_at hwc_dev disp with
    | none => none
    | some display =>
      let comp := display.composition
      some (
        /- skip non-NV12 layers if also using SGX (if nv12_only flag is set) -/
        (decide (hwc_dev.flags_nv12_only = 0) || (!comp.use_sgx || is_nv12_layer layer)) &&
        /- make sure RGB ordering is consistent (if rgb_order flag is set) -/
        (!(if comp.swap_rb then is_rgb_layer layer else is_bgr_layer layer) ||
          decide (hwc_dev.flags_rgb_order = 0)) &&
        /- TV can only render RGB -/
        !(on_tv && is_bgr_layer layer))

/-- The display that shows the same frame as `disp` under mirroring:
`(disp == HWC_DISPLAY_PRIMARY) ? ext_disp : HWC_DISPLAY_PRIMARY`. -/
def clone_of (hwc_dev : omap_hwc_device) (disp : Int) : Int :=
  if disp = HWC_DISPLAY_PRIMARY then ext_disp_of hwc_dev disp else HWC_DISPLAY_PRIMARY

/-- The function `can_dss_render_layer` of dsscomp.c. -/
def can_dss_render_layer (hwc_dev : omap_hwc_device) (disp : Int) (layer : hwc_layer) :
    Option Bool :=
  let on_tv := is_hdmi_display hwc_dev disp
  let ext_disp := ext_disp_of hwc_dev disp
  if is_external_display_mirroring hwc_dev ext_disp then
    if !is_composable_layer hwc_dev ext_disp layer then
      some false
    else
      let on_tv := if !on_tv then is_hdmi_display hwc_dev (clone_of hwc_dev disp) else on_tv
      match display_at hwc_dev ext_disp with
      | none => none
      | some ext_display =>
        let tform := decide (ext_display.transform.rotation ≠ 0) ||
                     decide (ext_display.transform.hflip ≠ 0)
        render_layer_conditions hwc_dev disp layer on_tv tform
  else
    render_layer_conditions hwc_dev disp layer on_tv false

/-- The mirroring external display paired with `disp`, when mirroring is
active for `disp`. -/
def mirroring_display (hwc_dev : omap_hwc_device) (disp : Int) : Option display :=
  if is_external_display_mirroring hwc_dev (ext_disp_of hwc_dev disp) then
    display_at hwc_dev (ext_disp_of hwc_dev disp)
  else none

/-- The admissibility of a layer in the words of the specification (section
4.3), for the display `d` of `disp` and the mirroring external display
`mirror` (if mirroring is active): the layer passes the base composability
test on `disp` and, under mirroring, on the mirroring external display; the
mirror transform is the identity or the layer is NV12; the NV12-only flag is
off, or GPU fallback is not in use on `disp`, or the layer is NV12; the
byte-order flag is off, or the layer is not RGB on a swapped display and not
BGR on an unswapped one; and it is not a BGR layer on a TV output. -/
def layer_admissible (hwc_dev : omap_hwc_device) (disp : Int) (layer : hwc_layer)
    (d : display) (mirror : Option display) : Prop :=
  is_composable_layer hwc_dev disp layer = true ∧
  (∀ e, mirror = some e →
    is_composable_layer hwc_dev (ext_disp_of hwc_dev disp) layer = true ∧
    ((e.transform.rotation = 0 ∧ e.transform.hflip = 0) ∨ is_nv12_layer layer = true)) ∧
  (hwc_dev.flags_nv12_only = 0 ∨ d.composition.use_sgx = false ∨
    is_nv12_layer layer = true) ∧
  (hwc_dev.flags_rgb_order = 0 ∨
    (if d.composition.swap_rb = true then is_rgb_layer layer = false
     else is_bgr_layer layer = false)) ∧
  ¬ ((is_hdmi_display hwc_dev disp = true ∨
      (mirror.isSome = true ∧ is_hdmi_display hwc_dev (clone_of hwc_dev disp) = true)) ∧
    is_bgr_layer layer = true)

/-! ## Manager assignment (`append_manager`, `setup_dsscomp_manager`) -/

/-- The function `append_manager` of dsscomp.c: the descriptor at index
`num_mgrs` gets `ix`, `alpha_blending = 1` and `swap_rb`, and `num_mgrs` is
incremented. -/
def append_manager (dsscomp : dsscomp_setup_dispc_data) (mgr_ix : Nat) (swap_rb : Bool) :
    dsscomp_setup_dispc_data :=
  { mgrs := Function.update dsscomp.mgrs dsscomp.num_mgrs
      { dsscomp.mgrs dsscomp.num_mgrs with
        ix := mgr_ix, alpha_blending := 1, swap_rb := swap_rb }
    num_mgrs := dsscomp.num_mgrs + 1 }

/-- The display whose request `setup_dsscomp_manager` extends: the primary
display when `disp` is the mirroring external display, `disp` otherwise. -/
def manager_target (hwc_dev : omap_hwc_device) (disp : Int) : Int :=
  if is_external_display_mirroring hwc_dev disp then HWC_DISPLAY_PRIMARY else disp

/-- The device state in which slot `disp` holds the display `d`. -/
def set_display (hwc_dev : omap_hwc_device) (disp : Int) (d : display) : omap_hwc_device :=
  { hwc_dev with
    displays := fun i => if (i : Int) = disp then some d else hwc_dev.displays i }

/-- The display `d` with the request `req` in place of its own. -/
def with_request (d : display) (req : dsscomp_setup_dispc_data) : display :=
  { d with composition := { d.composition with comp_data := { dsscomp_data := req } } }

/-- The function `setup_dsscomp_manager` of dsscomp.c, as the device state it
leaves. The pointer `dsscomp` of the C code is the request of the display in
slot `manager_target hwc_dev disp`; what is written through it is stored back
into that slot. -/
def setup_dsscomp_manager (hwc_dev : omap_hwc_device) (disp : Int) : Option omap_hwc_device :=
  match display_at hwc_dev disp, display_at hwc_dev (manager_target hwc_dev disp) with
  | some display, some target =>
    let comp := display.composition
    let dsscomp := target.composition.comp_data.dsscomp_data
    let dsscomp := append_manager dsscomp display.mgr_ix comp.swap_rb
    if hwc_dev.dsscomp.last_ext_ovls ≠ 0 ∧ get_external_display_id hwc_dev < 0 then
      /- reclaim the pipelines of an external display that is gone -/
      let dsscomp := append_manager dsscomp 1 false
      some (set_display
        { hwc_dev with dsscomp := { hwc_dev.dsscomp with last_ext_ovls := 0 } }
        (manager_target hwc_dev disp) (with_request target dsscomp))
    else
      some (set_display hwc_dev (manager_target hwc_dev disp) (with_request target dsscomp))
  | _, _ => none

/-- The request of a display, `display->composition.comp_data.dsscomp_data`. -/
def display.request (d : display) : dsscomp_setup_dispc_data :=
  d.composition.comp_data.dsscomp_data

/-- The reclaim condition of `setup_dsscomp_manager`:
`hwc_dev->dsscomp.last_ext_ovls && get_external_display_id(hwc_dev) < 0`. -/
def reclaim_pending (hwc_dev : omap_hwc_device) : Prop :=
  hwc_dev.dsscomp.last_ext_ovls ≠ 0 ∧ get_external_display_id hwc_dev < 0

instance (hwc_dev : omap_hwc_device) : Decidable (reclaim_pending hwc_dev) := by
  unfold reclaim_pending
  infer_instance

/-! ## Driver session (`close_dsscomp`, `get_dsscomp_display_mode_db`) -/

/-- The function `close_dsscomp` of dsscomp.c: the device state it leaves and
the descriptors it has passed to `close`, in order. -/
def close_dsscomp (hwc_dev : omap_hwc_device) : omap_hwc_device × List Int :=
  if hwc_dev.dsscomp.fd ≥ 0 then
    ({ hwc_dev with dsscomp := { hwc_dev.dsscomp with fd := 0 } }, [hwc_dev.dsscomp.fd])
  else
    (hwc_dev, [])

/-- Capacity of the local mode table of `get_dsscomp_display_mode_db`. -/
def MAX_MODE_DB_LENGTH : Nat := 32

/-- A timing mode, `struct dsscomp_videomode`. Its fields are declared in the
kernel header, which is not among the sources; `raw` stands for the contents
of the struct. -/
structure dsscomp_videomode where
  raw : Nat := 0
deriving DecidableEq

/-- What a `DSSCIOC_QUERY_DISPLAY` call leaves behind. With `ok` the call
returned 0: `modedb_len` is the count the driver has stored in
`query.info.modedb_len` and `modedb` is the local table `query.modedb` after
the call. With `error` the call returned non-zero and `errno` is the error
number. -/
inductive ioctl_result where
  | ok (modedb_len : Nat) (modedb : Nat → dsscomp_videomode)
  | error (errno : Nat)

/-- The driver behind `ioctl(fd, DSSCIOC_QUERY_DISPLAY, &query.info)`: the
descriptor, the display index `info.ix` and the count `info.modedb_len` the
caller asks for determine what the call leaves behind. The driver is not part
of this repository; the functions below take it as a parameter. -/
abbrev query_display_driver := Int → Int → Nat → ioctl_result

/-- The return value of `get_dsscomp_display_mode_db` together with the
caller's table `mode_db` and count `*mode_db_len` after the call. -/
structure mode_db_result where
  ret : Int
  mode_db : Nat → dsscomp_videomode
  mode_db_len : Nat

/-- The function `get_dsscomp_display_mode_db` of dsscomp.c, for the caller's
table `mode_db` and count `mode_db_len` before the call. `memcpy` copies the
first `query.info.modedb_len` entries of the local table, which has
`MAX_MODE_DB_LENGTH` entries: a larger count reads past it, and there is no
defined result. -/
def get_dsscomp_display_mode_db (driver : query_display_driver) (hwc_dev : omap_hwc_device)
    (mgr_ix : Int) (mode_db : Nat → dsscomp_videomode) (mode_db_len : Nat) :
    Option mode_db_result :=
  let modedb_len := if mode_db_len > MAX_MODE_DB_LENGTH then MAX_MODE_DB_LENGTH else mode_db_len
  match driver hwc_dev.dsscomp.fd mgr_ix modedb_len with
  | ioctl_result.error errno =>
    some { ret := -(errno : Int), mode_db := mode_db, mode_db_len := mode_db_len }
  | ioctl_result.ok len modedb =>
    if len > MAX_MODE_DB_LENGTH then none
    else
      some { ret := 0
             mode_db := fun i => if i < len then modedb i else mode_db i
             mode_db_len := len }

/-- A driver that reports five modes whatever count it is asked for. -/
def five_mode_driver : query_display_driver :=
  fun _ _ _ => ioctl_result.ok 5 (fun i => { raw := i + 1 })

/-- A driver that caps the modes it reports (it knows five) at the count it is
asked for, and fails with `ENODEV` (19) on any display but 0 and 1. -/
def capping_driver : query_display_driver :=
  fun _ ix n =>
    if ix = 0 ∨ ix = 1 then ioctl_result.ok (min n 5) (fun i => { raw := i + 1 })
    else ioctl_result.error 19

/-! ## Writeback mode (`decide_dss_wb_capture_mode`)

The C function computes with `float`. The values it forms are quotients of two
integers below `2^32` and products of such a quotient with a constant close to
0.85: they stay far inside the range of normal binary32 numbers, where a
`float` operation returns the exact result rounded to the nearest number with a
24-bit significand, ties to the even significand. The model rounds that way
and keeps the exponent unbounded; zero has no sign in it. -/

/-- The nearest integer, ties to the even one. -/
def round_half_even (t : ℚ) : ℤ :=
  if t - ⌊t⌋ < 1 / 2 then ⌊t⌋
  else if 1 / 2 < t - ⌊t⌋ then ⌊t⌋ + 1
  else if ⌊t⌋ % 2 = 0 then ⌊t⌋ else ⌊t⌋ + 1

/-- The positive rational `q` rounded to a 24-bit significand: with
`2^e <= q < 2^(e+1)` the result is the multiple of `2^(e-23)` nearest to `q`. -/
def round_binary32_pos (q : ℚ) : ℚ :=
  round_half_even (q / 2 ^ (Int.log 2 q - 23)) * 2 ^ (Int.log 2 q - 23)

/-- The rational `q` rounded to a 24-bit significand. -/
def round_binary32 (q : ℚ) : ℚ :=
  if 0 < q then round_binary32_pos q
  else if q < 0 then -round_binary32_pos (-q)
  else 0

/-- A value of type `float`. -/
inductive binary32 where
  | finite (q : ℚ)
  | infinite (negative : Bool)
  | nan

/-- The conversion `(float) n` of an unsigned integer. -/
def binary32.of_uint32 (n : Nat) : binary32 :=
  binary32.finite (round_binary32 n)

/-- The `float` division `a / b`. -/
def binary32.div : binary32 → binary32 → binary32
  | finite a, finite b =>
    if b = 0 then (if a = 0 then nan else infinite (decide (a < 0)))
    else finite (round_binary32 (a / b))
  | finite _, infinite _ => finite 0
  | infinite s, finite b => infinite (xor s (decide (b < 0)))
  | infinite _, infinite _ => nan
  | nan, _ => nan
  | _, nan => nan

/-- The `float` product `a * b`. -/
def binary32.mul : binary32 → binary32 → binary32
  | finite a, finite b => finite (round_binary32 (a * b))
  | finite a, infinite s => if a = 0 then nan else infinite (xor s (decide (a < 0)))
  | infinite s, finite b => if b = 0 then nan else infinite (xor s (decide (b < 0)))
  | infinite s, infinite r => infinite (xor s r)
  | nan, _ => nan
  | _, nan => nan

/-- The `float` difference `a - b`. -/
def binary32.sub : binary32 → binary32 → binary32
  | finite a, finite b => finite (round_binary32 (a - b))
  | finite _, infinite s => infinite (!s)
  | infinite s, finite _ => infinite s
  | infinite s, infinite r => if s = r then nan else infinite s
  | nan, _ => nan
  | _, nan => nan

/-- The `float` comparison `a < b`; it is false when an operand is a NaN. -/
def binary32.lt : binary32 → binary32 → Bool
  | finite a, finite b => decide (a < b)
  | finite _, infinite s => !s
  | infinite s, finite _ => s
  | infinite s, infinite r => s && !r
  | nan, _ => false
  | _, nan => false

/-- The `float` comparison `a > b`. -/
def binary32.gt (a b : binary32) : Bool := binary32.lt b a

/-- Modelled from the spec: the two operating modes of the writeback engine
(section 4.6, `{Capture, MemToMem}`); the enumerators `OMAP_WB_CAPTURE_MODE`
and `OMAP_WB_MEM2MEM_MODE` are declared in the kernel headers, which are not
among the sources. -/
inductive omap_writeback_mode where
  | OMAP_WB_CAPTURE_MODE
  | OMAP_WB_MEM2MEM_MODE
deriving DecidableEq

/-- The constant `WB_CAPTURE_MAX_UPSCALE`, `1.0f`. -/
def WB_CAPTURE_MAX_UPSCALE : binary32 := binary32.finite 1

/-- The constant `WB_CAPTURE_MAX_DOWNSCALE`, `0.5f`. -/
def WB_CAPTURE_MAX_DOWNSCALE : binary32 := binary32.finite (1 / 2)

/-- The constant `WB_ASPECT_RATIO_TOLERANCE`, `0.15f`: the `float` nearest to
15/100. -/
def WB_ASPECT_RATIO_TOLERANCE : binary32 := binary32.finite (round_binary32 (15 / 100))

/-- The value of `wb_mode` in `decide_dss_wb_capture_mode` after the `if`
statement, before the assignment that forces `OMAP_WB_MEM2MEM_MODE`: the
computed decision. -/
def computed_wb_capture_mode (src_xres src_yres dst_xres dst_yres : Nat) :
    omap_writeback_mode :=
  let x_scale_factor := binary32.div (binary32.of_uint32 src_xres) (binary32.of_uint32 dst_xres)
  let y_scale_factor := binary32.div (binary32.of_uint32 src_yres) (binary32.of_uint32 dst_yres)
  if binary32.gt x_scale_factor WB_CAPTURE_MAX_UPSCALE ||
      binary32.gt y_scale_factor WB_CAPTURE_MAX_UPSCALE ||
      binary32.lt x_scale_factor WB_CAPTURE_MAX_DOWNSCALE ||
      binary32.lt y_scale_factor WB_CAPTURE_MAX_DOWNSCALE ||
      binary32.lt x_scale_factor
        (binary32.mul y_scale_factor
          (binary32.sub (binary32.finite 1) WB_ASPECT_RATIO_TOLERANCE)) ||
      binary32.gt
        (binary32.mul x_scale_factor
          (binary32.sub (binary32.finite 1) WB_ASPECT_RATIO_TOLERANCE))
        y_scale_factor then
    omap_writeback_mode.OMAP_WB_MEM2MEM_MODE
  else
    omap_writeback_mode.OMAP_WB_CAPTURE_MODE

/-- The function `decide_dss_wb_capture_mode` of dsscomp.c: the computed
decision is overwritten ("HACK: Force MEM2MEM mode until switching between
MEM2MEM and CAPTURE is properly supported"). -/
def decide_dss_wb_capture_mode (src_xres src_yres dst_xres dst_yres : Nat) :
    omap_writeback_mode :=
  let _wb_mode := computed_wb_capture_mode src_xres src_yres dst_xres dst_yres
  omap_writeback_mode.OMAP_WB_MEM2MEM_MODE

/-! ## Concrete states used by the examples -/

/-- A device whose platform limits are `limits`. -/
def device_with_limits (limits : dsscomp_platform_info) : omap_hwc_device :=
  { dsscomp := { limits := limits } }

/-- The platform limits of the scenario of section 8. -/
def scenario_limits : dsscomp_platform_info :=
  { max_xdecim_1d := 4
    max_ydecim_1d := 4
    max_xdecim_2d := 2
    max_ydecim_2d := 2
    max_downscale := 4
    min_width := 2
    integer_scale_ratio_limit := 64
    fclk := 200000 }

/-- A panel (a display that is not on the digital/TV channel). -/
def panel_info : dsscomp_display_info := { channel := 0 }

/-- A display on the digital/TV channel. -/
def tv_info : dsscomp_display_info := { channel := OMAP_DSS_CHANNEL_DIGIT }

/-- Limits with unit decimation, downscale 4 and a pipeline clock of 1 kHz. -/
def unit_limits : dsscomp_platform_info :=
  { max_xdecim_1d := 1
    max_ydecim_1d := 1
    max_xdecim_2d := 1
    max_ydecim_2d := 1
    max_downscale := 4
    fclk := 1000 }

/-- Statistics of a frame with one scaled NV12 video layer. -/
def video_stats : layer_statistics :=
  { count := 1
    composable := 1
    composable_mask := 1
    scaled := 1
    nv12 := 1 }

/-- Statistics of a frame with two RGB layers, both composable. -/
def ui_stats : layer_statistics :=
  { count := 2
    composable := 2
    composable_mask := 3
    rgb := 2
    mem1d_total := 4096 }

/-- Statistics of a frame with two RGB layers of which only the first is
composable. -/
def partial_stats : layer_statistics :=
  { count := 2
    composable := 1
    composable_mask := 1
    rgb := 2
    mem1d_total := 4096 }

/-- A ledger with three overlays, two of them scaling, and an 8 KiB slot. -/
def ledger : composition :=
  { avail_ovls := 3
    scaling_ovls := 2
    tiler1d_slot_size := 8192 }

/-- A device with a primary panel only, showing `stats`. -/
def panel_device (stats : layer_statistics) : omap_hwc_device :=
  { displays := fun i =>
      if i = 0 then some { layer_stats := stats, composition := ledger } else none }

/-- The primary panel of `mirror_device`. -/
def mirror_primary (stats : layer_statistics) : display :=
  { layer_stats := stats, composition := ledger }

/-- The external HDMI display of `mirror_device`. -/
def mirror_external (stats : layer_statistics) (t : display_transform) : display :=
  { mgr_ix := 1, layer_stats := stats, composition := ledger, transform := t }

/-- A device whose external HDMI display (slot 1, transform `t`, statistics
`ext_stats`) mirrors the primary panel (slot 0, statistics `primary_stats`). -/
def mirror_device (primary_stats ext_stats : layer_statistics) (t : display_transform) :
    omap_hwc_device :=
  { displays := fun i =>
      if i = 0 then some { layer_stats := primary_stats, composition := ledger }
      else if i = 1 then
        some { mgr_ix := 1, layer_stats := ext_stats, composition := ledger, transform := t }
      else none
    external_display_id := 1
    hdmi_display := fun j => decide (j = 1)
    external_display_mirroring := fun j => decide (j = 1) }

/-- The panel of `detached_device`: manager 0, swapped byte order. -/
def detached_panel : display :=
  { composition := { swap_rb := true } }

/-- A device with a primary panel only (manager 0, swapped byte order) whose
last frame used `n` overlays of an external display that is now detached. -/
def detached_device (n : Int) : omap_hwc_device :=
  { displays := fun i => if i = 0 then some detached_panel else none
    dsscomp := { fd := 5, last_ext_ovls := n } }

/-- Statistics of a frame with one composable BGR layer. -/
def bgr_stats : layer_statistics :=
  { count := 1
    composable := 1
    composable_mask := 1
    bgr := 1 }

/-- A composable BGR layer. -/
def bgr_layer : hwc_layer :=
  { composable := fun _ => true
    bgr := true }

/-- A composable RGB layer. -/
def rgb_layer : hwc_layer :=
  { composable := fun _ => true
    rgb := true }

/-! ## Lemmas on `can_dss_scale` -/

/-- With non-zero selected decimation factors both `DIV_ROUND_UP` have a value
and `can_dss_scale` is its chain of checks. -/
lemma can_dss_scale_eq (hwc_dev : omap_hwc_device) (src_w src_h dst_w dst_h : Nat)
    (is_2d : Bool) (dis : dsscomp_display_info) (pclk : Nat)
    (hx : xdecim_of hwc_dev.dsscomp.limits is_2d ≠ 0)
    (hy : ydecim_of hwc_dev.dsscomp.limits is_2d ≠ 0) :
    can_dss_scale hwc_dev src_w src_h dst_w dst_h is_2d dis pclk =
      if dis.channel ≠ OMAP_DSS_CHANNEL_DIGIT ∧ dst_w < hwc_dev.dsscomp.limits.min_width then
        some false
      else if dst_h < src_h / 4 then some false
      else if mul32 dst_h hwc_dev.dsscomp.limits.max_downscale
          < ceilDiv src_h (ydecim_of hwc_dev.dsscomp.limits is_2d) then some false
      else if pclk = 0 then
        match udiv src_w hwc_dev.dsscomp.limits.max_downscale with
        | none => none
        | some q => some (!decide (dst_w < q / xdecim_of hwc_dev.dsscomp.limits is_2d))
      else if mul32 dst_w 4 < src_w then some false
      else if mul32 dst_w (effective_fclk hwc_dev.dsscomp.limits src_w pclk)
          < mul32 (ceilDiv src_w (xdecim_of hwc_dev.dsscomp.limits is_2d)) pclk then some false
      else some true := by
  simp only [can_dss_scale, DIV_ROUND_UP, if_neg hx, if_neg hy]

/-- A product below `2^32` is not changed by 32-bit arithmetic. -/
lemma mul32_of_lt (a b : Nat) (h : a * b < UINT32_MOD) : mul32 a b = a * b := by
  unfold mul32
  exact Nat.mod_eq_of_lt h

/-- When `pclk * max_downscale` fits 32 bits the clock the code computes is
the clock of the specification. -/
lemma effective_fclk_eq_exact (limits : dsscomp_platform_info) (src_w pclk : Nat)
    (h : pclk * limits.max_downscale < UINT32_MOD) :
    effective_fclk limits src_w pclk = exact_fclk limits src_w pclk := by
  unfold effective_fclk exact_fclk
  rw [mul32_of_lt _ _ h]
  have hmin : (if limits.fclk / 1000 > pclk * limits.max_downscale
      then pclk * limits.max_downscale else limits.fclk / 1000)
      = min (limits.fclk / 1000) (pclk * limits.max_downscale) := by
    by_cases hc : limits.fclk / 1000 > pclk * limits.max_downscale
    · rw [if_pos hc, Nat.min_eq_right (Nat.le_of_lt hc)]
    · rw [if_neg hc, Nat.min_eq_left (Nat.le_of_not_gt hc)]
  simp only [hmin]

/-! ## Lemmas on `can_dss_render_all_layers` -/

/-- When `a & b == a`, every bit set in `a` is set in `b`. -/
lemma testBit_of_land_eq_left (a b : Nat) (h : a &&& b = a) (i : Nat)
    (hi : a.testBit i = true) : b.testBit i = true := by
  have hb : (a &&& b).testBit i = true := by rw [h]; exact hi
  rw [Nat.testBit_land, Bool.and_eq_true] at hb
  exact hb.2

/-- What the `return` expression of `can_dss_render_all_layers` demands. -/
lemma render_all_conditions_iff (hwc_dev : omap_hwc_device) (d : display)
    (on_tv tform : Bool) :
    render_all_conditions hwc_dev d on_tv tform = true ↔
      hwc_dev.force_sgx = 0 ∧ d.layer_stats.composable ≠ 0 ∧
      d.layer_stats.composable ≤ d.composition.avail_ovls ∧
      d.layer_stats.composable = d.layer_stats.count ∧
      d.layer_stats.scaled ≤ d.composition.scaling_ovls ∧
      d.layer_stats.nv12 ≤ d.composition.scaling_ovls ∧
      d.layer_stats.mem1d_total ≤ d.composition.tiler1d_slot_size ∧
      (tform = true → d.layer_stats.nv12 = d.layer_stats.composable) ∧
      (d.layer_stats.bgr = 0 ∨ (d.layer_stats.rgb = 0 ∧ on_tv = false) ∨
        hwc_dev.flags_rgb_order = 0) ∧
      (hwc_dev.flags_nv12_only = 0 ∨ (d.layer_stats.bgr = 0 ∧ d.layer_stats.rgb = 0)) := by
  unfold render_all_conditions
  cases tform <;> cases on_tv <;>
    simp only [Bool.and_eq_true, Bool.or_eq_true, decide_eq_true_eq, Bool.not_true,
      Bool.not_false, Bool.false_or, Bool.true_or, Bool.and_true, Bool.and_false,
      true_and, and_true, and_false, false_or, or_false, true_implies, and_assoc,
      false_implies, Bool.false_eq_true, or_assoc, reduceCtorEq]

/-- Reading a slot of the state `with_avail_ovls hwc_dev disp n`. -/
lemma display_at_with_avail_ovls (hwc_dev : omap_hwc_device) (disp : Int) (n : Nat)
    (j : Int) :
    display_at (with_avail_ovls hwc_dev disp n) j =
      if j = disp then
        (display_at hwc_dev j).map
          (fun d => { d with composition := { d.composition with avail_ovls := n } })
      else display_at hwc_dev j := by
  unfold display_at with_avail_ovls
  by_cases hr : 0 ≤ j ∧ j < (MAX_DISPLAYS : Int)
  · have hj : ((j.toNat : Nat) : Int) = j := Int.toNat_of_nonneg hr.1
    simp only [if_pos hr, hj]
  · simp only [if_neg hr, Option.map_none', ite_self]

/-- Reading a slot of the state `with_composable_mask hwc_dev disp m`. -/
lemma display_at_with_composable_mask (hwc_dev : omap_hwc_device) (disp : Int) (m : Nat)
    (j : Int) :
    display_at (with_composable_mask hwc_dev disp m) j =
      if j = disp then
        (display_at hwc_dev j).map
          (fun d => { d with layer_stats := { d.layer_stats with composable_mask := m } })
      else display_at hwc_dev j := by
  unfold display_at with_composable_mask
  by_cases hr : 0 ≤ j ∧ j < (MAX_DISPLAYS : Int)
  · have hj : ((j.toNat : Nat) : Int) = j := Int.toNat_of_nonneg hr.1
    simp only [if_pos hr, hj]
  · simp only [if_neg hr, Option.map_none', ite_self]

/-- In the mirroring branch a true result needs both displays, compatible
masks and the conditions of the `return` expression. -/
lemma render_all_mirroring_true (hwc_dev : omap_hwc_device) (disp : Int)
    (hmir : is_external_display_mirroring hwc_dev (ext_disp_of hwc_dev disp) = true)
    (h : can_dss_render_all_layers hwc_dev disp = some true) :
    ∃ d e, display_at hwc_dev disp = some d ∧
      display_at hwc_dev (ext_disp_of hwc_dev disp) = some e ∧
      d.layer_stats.composable_mask &&& e.layer_stats.composable_mask
        = d.layer_stats.composable_mask ∧
      render_all_conditions hwc_dev d
        (if (!is_hdmi_display hwc_dev disp) = true then
          is_hdmi_display hwc_dev
            (if disp = HWC_DISPLAY_PRIMARY then ext_disp_of hwc_dev disp
              else HWC_DISPLAY_PRIMARY)
          else is_hdmi_display hwc_dev disp)
        (decide (e.transform.rotation ≠ 0) || decide (e.transform.hflip ≠ 0)) = true := by
  unfold can_dss_render_all_layers at h
  simp only [hmir, if_true] at h
  cases he : display_at hwc_dev (ext_disp_of hwc_dev disp) with
  | none => rw [he] at h; simp at h
  | some e =>
    cases hd : display_at hwc_dev disp with
    | none => rw [he, hd] at h; simp at h
    | some d =>
      rw [he, hd] at h
      simp only at h
      by_cases hmask : d.layer_stats.composable_mask &&& e.layer_stats.composable_mask
          = d.layer_stats.composable_mask
      · refine ⟨d, e, rfl, rfl, hmask, ?_⟩
        simp only [ne_eq, hmask, not_true_eq_false, if_false, Option.some.injEq] at h
        exact h
      · simp [hmask] at h

/-- Without mirroring a true result needs the display and the conditions of
the `return` expression, with `tform` false. -/
lemma render_all_plain_true (hwc_dev : omap_hwc_device) (disp : Int)
    (hmir : is_external_display_mirroring hwc_dev (ext_disp_of hwc_dev disp) = false)
    (h : can_dss_render_all_layers hwc_dev disp = some true) :
    ∃ d, display_at hwc_dev disp = some d ∧
      render_all_conditions hwc_dev d (is_hdmi_display hwc_dev disp) false = true := by
  unfold can_dss_render_all_layers at h
  simp only [hmir, Bool.false_eq_true, if_false] at h
  by_cases hf : hwc_dev.force_sgx ≠ 0
  · simp [hf] at h
  · rw [if_neg hf] at h
    cases hd : display_at hwc_dev disp with
    | none => rw [hd] at h; simp at h
    | some d =>
      rw [hd] at h
      exact ⟨d, rfl, by simpa using h⟩

/-- The result in the mirroring branch, once both displays are there and the
masks are compatible. -/
lemma render_all_mirroring_eq (hwc_dev : omap_hwc_device) (disp : Int) (d e : display)
    (hmir : is_external_display_mirroring hwc_dev (ext_disp_of hwc_dev disp) = true)
    (hd : display_at hwc_dev disp = some d)
    (he : display_at hwc_dev (ext_disp_of hwc_dev disp) = some e)
    (hmask : d.layer_stats.composable_mask &&& e.layer_stats.composable_mask
      = d.layer_stats.composable_mask) :
    can_dss_render_all_layers hwc_dev disp = some (render_all_conditions hwc_dev d
        (if (!is_hdmi_display hwc_dev disp) = true then
          is_hdmi_display hwc_dev
            (if disp = HWC_DISPLAY_PRIMARY then ext_disp_of hwc_dev disp
              else HWC_DISPLAY_PRIMARY)
          else is_hdmi_display hwc_dev disp)
        (decide (e.transform.rotation ≠ 0) || decide (e.transform.hflip ≠ 0))) := by
  unfold can_dss_render_all_layers
  simp only [hmir, if_true, he, hd, ne_eq, hmask, not_true_eq_false, if_false]

/-- The result without mirroring and with `force_sgx` off. -/
lemma render_all_plain_eq (hwc_dev : omap_hwc_device) (disp : Int) (d : display)
    (hmir : is_external_display_mirroring hwc_dev (ext_disp_of hwc_dev disp) = false)
    (hf : hwc_dev.force_sgx = 0)
    (hd : display_at hwc_dev disp = some d) :
    can_dss_render_all_layers hwc_dev disp
      = some (render_all_conditions hwc_dev d (is_hdmi_display hwc_dev disp) false) := by
  unfold can_dss_render_all_layers
  simp only [hmir, Bool.false_eq_true, if_false, ne_eq, hf, not_true_eq_false, hd]

/-- Raising `avail_ovls` keeps the `return` expression true. -/
lemma render_all_conditions_avail_ovls (hwc_dev : omap_hwc_device) (disp : Int) (n : Nat)
    (d : display) (on_tv tform : Bool) (hn : d.composition.avail_ovls ≤ n)
    (h : render_all_conditions hwc_dev d on_tv tform = true) :
    render_all_conditions (with_avail_ovls hwc_dev disp n)
      { d with composition := { d.composition with avail_ovls := n } } on_tv tform = true := by
  rw [render_all_conditions_iff] at h ⊢
  obtain ⟨h1, h2, h3, h4, h5, h6, h7, h8, h9, h10⟩ := h
  exact ⟨h1, h2, le_trans h3 hn, h4, h5, h6, h7, h8, h9, h10⟩

/-! ## Theorems on `can_dss_scale` -/

/-- C1 (as amended): for every `src_w, src_h, dst_w, dst_h` with
`dst_h < src_h / 4` and for every `is_2d`, display info, `pclk` and platform
limits whose decimation factors selected by `is_2d` are non-zero,
`can_dss_scale` returns false. -/
theorem can_dss_scale_vertical_floor (hwc_dev : omap_hwc_device)
    (src_w src_h dst_w dst_h : Nat) (is_2d : Bool) (dis : dsscomp_display_info)
    (pclk : Nat) (h : dst_h < src_h / 4)
    (hx : xdecim_of hwc_dev.dsscomp.limits is_2d ≠ 0)
    (hy : ydecim_of hwc_dev.dsscomp.limits is_2d ≠ 0) :
    can_dss_scale hwc_dev src_w src_h dst_w dst_h is_2d dis pclk = some false := by
  rw [can_dss_scale_eq _ _ _ _ _ _ _ _ hx hy]
  by_cases he : dis.channel ≠ OMAP_DSS_CHANNEL_DIGIT ∧ dst_w < hwc_dev.dsscomp.limits.min_width
  · rw [if_pos he]
  · rw [if_neg he, if_pos h]

/-- C1, witness: the scenario limits with a destination height of 1. -/
theorem can_dss_scale_vertical_floor_witness :
    can_dss_scale (device_with_limits scenario_limits) 1920 1080 480 1 true tv_info 74250
      = some false :=
  can_dss_scale_vertical_floor (device_with_limits scenario_limits) 1920 1080 480 1 true
    tv_info 74250 (by decide) (by decide) (by decide)

/-- C1, counterexample: with a zero 1-D horizontal decimation factor the
initial `DIV_ROUND_UP(src_w, 0)` has no value and nothing is returned,
although `dst_h < src_h / 4`. -/
theorem can_dss_scale_zero_xdecim_no_result :
    (1 : Nat) < 1080 / 4 ∧
    can_dss_scale (device_with_limits { scenario_limits with max_xdecim_1d := 0 })
      1920 1080 480 1 false panel_info 0 = none ∧
    can_dss_scale (device_with_limits { scenario_limits with max_xdecim_1d := 0 })
      1920 1080 480 1 false panel_info 0 ≠ some false := by
  decide

/-- C2 (as amended): two calls with `pclk == 0` that agree on `src_w`,
`dst_w`, `max_downscale` and the selected horizontal decimation factor return
the same result, whatever `src_h`, `dst_h`, the display channel, `min_width`,
`fclk` and the other limits are, provided both calls pass the three checks
that precede the `pclk` test: the selected vertical decimation factor is
non-zero and neither the narrow-panel erratum check, nor `dst_h < src_h / 4`,
nor the max-downscale check on the height rejects. -/
theorem can_dss_scale_pclk0_depends (dev1 dev2 : omap_hwc_device) (src_w dst_w : Nat)
    (src_h1 dst_h1 src_h2 dst_h2 : Nat) (is_2d1 is_2d2 : Bool)
    (dis1 dis2 : dsscomp_display_info)
    (hmd : dev1.dsscomp.limits.max_downscale = dev2.dsscomp.limits.max_downscale)
    (hxd : xdecim_of dev1.dsscomp.limits is_2d1 = xdecim_of dev2.dsscomp.limits is_2d2)
    (hy1 : ydecim_of dev1.dsscomp.limits is_2d1 ≠ 0)
    (hy2 : ydecim_of dev2.dsscomp.limits is_2d2 ≠ 0)
    (he1 : ¬ (dis1.channel ≠ OMAP_DSS_CHANNEL_DIGIT ∧ dst_w < dev1.dsscomp.limits.min_width))
    (he2 : ¬ (dis2.channel ≠ OMAP_DSS_CHANNEL_DIGIT ∧ dst_w < dev2.dsscomp.limits.min_width))
    (hv1 : ¬ dst_h1 < src_h1 / 4) (hv2 : ¬ dst_h2 < src_h2 / 4)
    (hm1 : ¬ mul32 dst_h1 dev1.dsscomp.limits.max_downscale
        < ceilDiv src_h1 (ydecim_of dev1.dsscomp.limits is_2d1))
    (hm2 : ¬ mul32 dst_h2 dev2.dsscomp.limits.max_downscale
        < ceilDiv src_h2 (ydecim_of dev2.dsscomp.limits is_2d2)) :
    can_dss_scale dev1 src_w src_h1 dst_w dst_h1 is_2d1 dis1 0
      = can_dss_scale dev2 src_w src_h2 dst_w dst_h2 is_2d2 dis2 0 := by
  by_cases hx : xdecim_of dev1.dsscomp.limits is_2d1 = 0
  · have hx2 : xdecim_of dev2.dsscomp.limits is_2d2 = 0 := by rw [← hxd]; exact hx
    simp only [can_dss_scale, DIV_ROUND_UP, if_pos hx, if_pos hx2]
  · have hx2 : xdecim_of dev2.dsscomp.limits is_2d2 ≠ 0 := by rw [← hxd]; exact hx
    rw [can_dss_scale_eq _ _ _ _ _ _ _ _ hx hy1, can_dss_scale_eq _ _ _ _ _ _ _ _ hx2 hy2,
      if_neg he1, if_neg hv1, if_neg hm1, if_neg he2, if_neg hv2, if_neg hm2,
      if_pos rfl, if_pos rfl, hmd, hxd]

/-- C2, witness: a panel with 1-D decimation and a TV with 2-D decimation,
different heights and limits, same four values. -/
theorem can_dss_scale_pclk0_depends_witness :
    can_dss_scale (device_with_limits scenario_limits) 1920 1080 480 270 false panel_info 0
      = can_dss_scale
          (device_with_limits { unit_limits with max_xdecim_2d := 4, min_width := 900 })
          1920 16 480 8 true tv_info 0 :=
  can_dss_scale_pclk0_depends (device_with_limits scenario_limits)
    (device_with_limits { unit_limits with max_xdecim_2d := 4, min_width := 900 })
    1920 480 1080 270 16 8 false true panel_info tv_info
    (by decide) (by decide) (by decide) (by decide) (by decide) (by decide)
    (by decide) (by decide) (by decide) (by decide)

/-- C2, counterexample: two calls with `pclk == 0`, the same limits, display,
`src_w` and `dst_w`; only `dst_h` differs, and so does the result. -/
theorem can_dss_scale_height_matters_without_pclk :
    can_dss_scale (device_with_limits scenario_limits) 1920 1080 480 270 false panel_info 0
      = some true ∧
    can_dss_scale (device_with_limits scenario_limits) 1920 1080 480 1 false panel_info 0
      = some false := by
  decide

/-- C3: for every input with `pclk == 0`, non-zero `max_downscale` and
decimation factors, that none of the erratum check, the `dst_h < src_h / 4`
check and the `dst_h * max_downscale < ceilDiv(src_h, ydecim)` check rejects,
`can_dss_scale` returns, and returns true if and only if
`dst_w >= src_w / max_downscale / xdecim`; and in the scenario of section 8
(panel, `pclk = 0`, 1920x1080 to 480x270, 1-D) it returns true. -/
theorem can_dss_scale_manual_panel (hwc_dev : omap_hwc_device)
    (src_w src_h dst_w dst_h : Nat) (is_2d : Bool) (dis : dsscomp_display_info)
    (hmd : hwc_dev.dsscomp.limits.max_downscale ≠ 0)
    (hx : xdecim_of hwc_dev.dsscomp.limits is_2d ≠ 0)
    (hy : ydecim_of hwc_dev.dsscomp.limits is_2d ≠ 0)
    (he : ¬ (dis.channel ≠ OMAP_DSS_CHANNEL_DIGIT ∧ dst_w < hwc_dev.dsscomp.limits.min_width))
    (hv : ¬ dst_h < src_h / 4)
    (hm : ¬ mul32 dst_h hwc_dev.dsscomp.limits.max_downscale
        < ceilDiv src_h (ydecim_of hwc_dev.dsscomp.limits is_2d)) :
    can_dss_scale hwc_dev src_w src_h dst_w dst_h is_2d dis 0
      = some (decide (src_w / hwc_dev.dsscomp.limits.max_downscale
          / xdecim_of hwc_dev.dsscomp.limits is_2d ≤ dst_w)) ∧
    (can_dss_scale hwc_dev src_w src_h dst_w dst_h is_2d dis 0 = some true ↔
      src_w / hwc_dev.dsscomp.limits.max_downscale
        / xdecim_of hwc_dev.dsscomp.limits is_2d ≤ dst_w) ∧
    can_dss_scale (device_with_limits scenario_limits) 1920 1080 480 270 false panel_info 0
      = some true := by
  have key : can_dss_scale hwc_dev src_w src_h dst_w dst_h is_2d dis 0
      = some (decide (src_w / hwc_dev.dsscomp.limits.max_downscale
          / xdecim_of hwc_dev.dsscomp.limits is_2d ≤ dst_w)) := by
    rw [can_dss_scale_eq _ _ _ _ _ _ _ _ hx hy, if_neg he, if_neg hv, if_neg hm, if_pos rfl]
    simp only [udiv, if_neg hmd]
    congr 1
    rw [← decide_not, decide_eq_decide, Nat.not_lt]
  refine ⟨key, ?_, by decide⟩
  rw [key]
  simp

/-- C3, witness: a 2-D scaled layer on a TV output, one pixel too narrow. -/
theorem can_dss_scale_manual_panel_witness :
    can_dss_scale (device_with_limits scenario_limits) 1920 1080 239 270 true tv_info 0
      = some (decide (1920 / 4 / 2 ≤ 239)) :=
  (can_dss_scale_manual_panel (device_with_limits scenario_limits) 1920 1080 239 270 true tv_info
    (by decide) (by decide) (by decide) (by decide) (by decide) (by decide)).1

/-- C4 (as amended): for every input with `pclk != 0` and non-zero decimation
factors that passes the erratum check and the two vertical checks, and whose
products `dst_w * 4`, `pclk * max_downscale`, `dst_w * E` and
`ceilDiv(src_w, xdecim) * pclk` all fit 32 bits, `can_dss_scale` returns, and
returns true if and only if `dst_w * 4 >= src_w` and
`dst_w * E >= ceilDiv(src_w, xdecim) * pclk`, with `E` the effective clock of
the specification (`exact_fclk`). -/
theorem can_dss_scale_pclk_exact (hwc_dev : omap_hwc_device)
    (src_w src_h dst_w dst_h : Nat) (is_2d : Bool) (dis : dsscomp_display_info)
    (pclk : Nat) (hp : pclk ≠ 0)
    (hx : xdecim_of hwc_dev.dsscomp.limits is_2d ≠ 0)
    (hy : ydecim_of hwc_dev.dsscomp.limits is_2d ≠ 0)
    (he : ¬ (dis.channel ≠ OMAP_DSS_CHANNEL_DIGIT ∧ dst_w < hwc_dev.dsscomp.limits.min_width))
    (hv : ¬ dst_h < src_h / 4)
    (hm : ¬ mul32 dst_h hwc_dev.dsscomp.limits.max_downscale
        < ceilDiv src_h (ydecim_of hwc_dev.dsscomp.limits is_2d))
    (o1 : dst_w * 4 < UINT32_MOD)
    (o2 : pclk * hwc_dev.dsscomp.limits.max_downscale < UINT32_MOD)
    (o3 : dst_w * exact_fclk hwc_dev.dsscomp.limits src_w pclk < UINT32_MOD)
    (o4 : ceilDiv src_w (xdecim_of hwc_dev.dsscomp.limits is_2d) * pclk < UINT32_MOD) :
    can_dss_scale hwc_dev src_w src_h dst_w dst_h is_2d dis pclk
      = some (decide (src_w ≤ dst_w * 4 ∧
          ceilDiv src_w (xdecim_of hwc_dev.dsscomp.limits is_2d) * pclk
            ≤ dst_w * exact_fclk hwc_dev.dsscomp.limits src_w pclk)) ∧
    (can_dss_scale hwc_dev src_w src_h dst_w dst_h is_2d dis pclk = some true ↔
      (src_w ≤ dst_w * 4 ∧
        ceilDiv src_w (xdecim_of hwc_dev.dsscomp.limits is_2d) * pclk
          ≤ dst_w * exact_fclk hwc_dev.dsscomp.limits src_w pclk)) := by
  have key : can_dss_scale hwc_dev src_w src_h dst_w dst_h is_2d dis pclk
      = some (decide (src_w ≤ dst_w * 4 ∧
          ceilDiv src_w (xdecim_of hwc_dev.dsscomp.limits is_2d) * pclk
            ≤ dst_w * exact_fclk hwc_dev.dsscomp.limits src_w pclk)) := by
    rw [can_dss_scale_eq _ _ _ _ _ _ _ _ hx hy, if_neg he, if_neg hv, if_neg hm, if_neg hp,
      effective_fclk_eq_exact _ _ _ o2, mul32_of_lt _ _ o1, mul32_of_lt _ _ o3,
      mul32_of_lt _ _ o4]
    by_cases h1 : dst_w * 4 < src_w
    · rw [if_pos h1]
      have : ¬ src_w ≤ dst_w * 4 := Nat.not_le.mpr h1
      simp [this]
    · rw [if_neg h1]
      have h1' : src_w ≤ dst_w * 4 := Nat.le_of_not_lt h1
      by_cases h2 : dst_w * exact_fclk hwc_dev.dsscomp.limits src_w pclk
          < ceilDiv src_w (xdecim_of hwc_dev.dsscomp.limits is_2d) * pclk
      · rw [if_pos h2]
        have : ¬ ceilDiv src_w (xdecim_of hwc_dev.dsscomp.limits is_2d) * pclk
            ≤ dst_w * exact_fclk hwc_dev.dsscomp.limits src_w pclk := Nat.not_le.mpr h2
        simp [this]
      · rw [if_neg h2]
        have : ceilDiv src_w (xdecim_of hwc_dev.dsscomp.limits is_2d) * pclk
            ≤ dst_w * exact_fclk hwc_dev.dsscomp.limits src_w pclk := Nat.le_of_not_lt h2
        simp [h1', this]
  refine ⟨key, ?_⟩
  rw [key]
  simp

/-- C4, witness: a 1280x720 layer shown at 640x360 on a 74.25 MHz TV mode. -/
theorem can_dss_scale_pclk_exact_witness :
    can_dss_scale (device_with_limits { scenario_limits with fclk := 186000000 })
      1280 720 640 360 false tv_info 74250 = some true ↔
    (1280 ≤ 640 * 4 ∧
      ceilDiv 1280 4 * 74250
        ≤ 640 * exact_fclk { scenario_limits with fclk := 186000000 } 1280 74250) :=
  (can_dss_scale_pclk_exact (device_with_limits { scenario_limits with fclk := 186000000 })
    1280 720 640 360 false tv_info 74250 (by decide) (by decide) (by decide) (by decide) (by decide) (by decide)
    (by decide) (by decide) (by decide) (by decide)).2

/-- C4, counterexample: `pclk = 32768`, unit decimation, a source 131072 wide
shown 32768 wide. Every check before the `pclk` test passes and the code
accepts, because `ceilDiv(src_w, 1) * pclk = 2^32` is 0 in 32 bits; with exact
products `dst_w * E = 32768` is below `2^32` and the claimed condition fails. -/
theorem can_dss_scale_pclk_product_wraps :
    (32768 : Nat) ≠ 0 ∧
    xdecim_of unit_limits false ≠ 0 ∧ ydecim_of unit_limits false ≠ 0 ∧
    ¬ (panel_info.channel ≠ OMAP_DSS_CHANNEL_DIGIT ∧ 32768 < unit_limits.min_width) ∧
    ¬ (1 < 1 / 4) ∧
    ¬ (mul32 1 unit_limits.max_downscale < ceilDiv 1 (ydecim_of unit_limits false)) ∧
    can_dss_scale (device_with_limits unit_limits) 131072 1 32768 1 false panel_info 32768
      = some true ∧
    ¬ (131072 ≤ 32768 * 4 ∧
      ceilDiv 131072 (xdecim_of unit_limits false) * 32768
        ≤ 32768 * exact_fclk unit_limits 131072 32768) := by
  decide

/-- C5 (as amended): for every input whose display channel is not the
digital/TV channel, whose `dst_w` is less than `limits.min_width` and whose
selected decimation factors are non-zero, `can_dss_scale` returns false; and
for a display on the digital/TV channel the result is the same for every
value of `min_width`. -/
theorem can_dss_scale_min_width (hwc_dev : omap_hwc_device)
    (src_w src_h dst_w dst_h : Nat) (is_2d : Bool) (dis : dsscomp_display_info)
    (pclk : Nat) :
    (dis.channel ≠ OMAP_DSS_CHANNEL_DIGIT → dst_w < hwc_dev.dsscomp.limits.min_width →
      xdecim_of hwc_dev.dsscomp.limits is_2d ≠ 0 →
      ydecim_of hwc_dev.dsscomp.limits is_2d ≠ 0 →
      can_dss_scale hwc_dev src_w src_h dst_w dst_h is_2d dis pclk = some false) ∧
    (dis.channel = OMAP_DSS_CHANNEL_DIGIT → ∀ (dev2 : omap_hwc_device) (m : Nat),
      dev2.dsscomp.limits = { hwc_dev.dsscomp.limits with min_width := m } →
      can_dss_scale dev2 src_w src_h dst_w dst_h is_2d dis pclk
        = can_dss_scale hwc_dev src_w src_h dst_w dst_h is_2d dis pclk) := by
  constructor
  · intro hc hw hx hy
    rw [can_dss_scale_eq _ _ _ _ _ _ _ _ hx hy, if_pos ⟨hc, hw⟩]
  · intro hc dev2 m hl
    have hnc : ∀ n : Nat, ¬ (dis.channel ≠ OMAP_DSS_CHANNEL_DIGIT ∧ dst_w < n) :=
      fun n h => h.1 hc
    simp only [can_dss_scale, hl, xdecim_of, ydecim_of, effective_fclk, if_neg (hnc _)]

/-- C5, witness: a one pixel wide strip on a panel is refused, and on a TV the
answer for the same strip is the same with `min_width` 2 and 900. -/
theorem can_dss_scale_min_width_witness :
    can_dss_scale (device_with_limits scenario_limits) 64 64 1 64 false panel_info 0
      = some false ∧
    can_dss_scale (device_with_limits { scenario_limits with min_width := 900 })
        64 64 1 64 false tv_info 0
      = can_dss_scale (device_with_limits scenario_limits) 64 64 1 64 false tv_info 0 :=
  ⟨(can_dss_scale_min_width (device_with_limits scenario_limits) 64 64 1 64 false
      panel_info 0).1 (by decide) (by decide) (by decide) (by decide),
   (can_dss_scale_min_width (device_with_limits scenario_limits) 64 64 1 64 false
      tv_info 0).2 (by decide)
      (device_with_limits { scenario_limits with min_width := 900 }) 900 rfl⟩

/-- C5, counterexample: a panel and `dst_w = 1 < min_width = 2`, but the 2-D
vertical decimation factor is zero: `DIV_ROUND_UP(src_h, 0)` has no value and
nothing is returned. -/
theorem can_dss_scale_zero_ydecim_no_result :
    panel_info.channel ≠ OMAP_DSS_CHANNEL_DIGIT ∧
    (1 : Nat) < ({ scenario_limits with max_ydecim_2d := 0 } : dsscomp_platform_info).min_width ∧
    can_dss_scale (device_with_limits { scenario_limits with max_ydecim_2d := 0 })
      64 64 1 64 true panel_info 0 = none ∧
    can_dss_scale (device_with_limits { scenario_limits with max_ydecim_2d := 0 })
      64 64 1 64 true panel_info 0 ≠ some false := by
  decide

/-! ## Theorems on `can_dss_render_all_layers` -/

/-- C6: `can_dss_render_all_layers` is monotonic in `avail_ovls`: when it
returns true for display `disp`, it still returns true in the state that
differs only by a larger `composition.avail_ovls` of that display. -/
theorem can_dss_render_all_layers_mono_avail_ovls (hwc_dev : omap_hwc_device) (disp : Int)
    (d : display) (n : Nat) (hd : display_at hwc_dev disp = some d)
    (hn : d.composition.avail_ovls ≤ n)
    (h : can_dss_render_all_layers hwc_dev disp = some true) :
    can_dss_render_all_layers (with_avail_ovls hwc_dev disp n) disp = some true := by
  have hd2 : display_at (with_avail_ovls hwc_dev disp n) disp
      = some { d with composition := { d.composition with avail_ovls := n } } := by
    rw [display_at_with_avail_ovls, if_pos rfl, hd]
    rfl
  cases hmir : is_external_display_mirroring hwc_dev (ext_disp_of hwc_dev disp) with
  | true =>
    obtain ⟨d0, e, hd0, he, hmask, hc⟩ := render_all_mirroring_true hwc_dev disp hmir h
    have hdd : d0 = d := Option.some.inj (hd0.symm.trans hd)
    subst hdd
    have he2 : ∃ e2, display_at (with_avail_ovls hwc_dev disp n)
          (ext_disp_of (with_avail_ovls hwc_dev disp n) disp) = some e2 ∧
        e2.layer_stats = e.layer_stats ∧ e2.transform = e.transform := by
      have hext : ext_disp_of (with_avail_ovls hwc_dev disp n) disp
          = ext_disp_of hwc_dev disp := rfl
      rw [hext, display_at_with_avail_ovls, he]
      by_cases hje : ext_disp_of hwc_dev disp = disp
      · rw [if_pos hje]
        exact ⟨_, rfl, rfl, rfl⟩
      · rw [if_neg hje]
        exact ⟨e, rfl, rfl, rfl⟩
    obtain ⟨e2, he2, hls, htf⟩ := he2
    have hmask2 : ({ d0 with composition := { d0.composition with avail_ovls := n } }
        : display).layer_stats.composable_mask &&& e2.layer_stats.composable_mask
        = ({ d0 with composition := { d0.composition with avail_ovls := n } }
        : display).layer_stats.composable_mask := by
      rw [hls]
      exact hmask
    rw [render_all_mirroring_eq (with_avail_ovls hwc_dev disp n) disp _ e2 hmir hd2 he2 hmask2,
      htf]
    exact congrArg some (render_all_conditions_avail_ovls hwc_dev disp n d0 _ _ hn hc)
  | false =>
    obtain ⟨d0, hd0, hc⟩ := render_all_plain_true hwc_dev disp hmir h
    have hdd : d0 = d := Option.some.inj (hd0.symm.trans hd)
    subst hdd
    have hf : hwc_dev.force_sgx = 0 := ((render_all_conditions_iff _ _ _ _).mp hc).1
    rw [render_all_plain_eq (with_avail_ovls hwc_dev disp n) disp _ hmir hf hd2]
    exact congrArg some (render_all_conditions_avail_ovls hwc_dev disp n d0 _ _ hn hc)

/-- C6, witness: a panel showing two layers, with 5 overlays instead of 3. -/
theorem can_dss_render_all_layers_mono_avail_ovls_witness :
    can_dss_render_all_layers (with_avail_ovls (panel_device ui_stats) 0 5) 0 = some true :=
  can_dss_render_all_layers_mono_avail_ovls (panel_device ui_stats) 0
    { layer_stats := ui_stats, composition := ledger } 5 rfl (by decide) (by decide)

/-- C7: when `can_dss_render_all_layers(disp)` returns true, `force_sgx` is
off, `composable > 0`, `composable == count`, `composable <= avail_ovls`,
`scaled <= scaling_ovls`, `nv12 <= scaling_ovls` and
`mem1d_total <= tiler1d_slot_size`; and when mirroring is not active and both
policy flags are off, these conditions make the result true. -/
theorem can_dss_render_all_layers_conditions (hwc_dev : omap_hwc_device) (disp : Int) :
    (can_dss_render_all_layers hwc_dev disp = some true →
      ∃ d, display_at hwc_dev disp = some d ∧
        hwc_dev.force_sgx = 0 ∧ 0 < d.layer_stats.composable ∧
        d.layer_stats.composable = d.layer_stats.count ∧
        d.layer_stats.composable ≤ d.composition.avail_ovls ∧
        d.layer_stats.scaled ≤ d.composition.scaling_ovls ∧
        d.layer_stats.nv12 ≤ d.composition.scaling_ovls ∧
        d.layer_stats.mem1d_total ≤ d.composition.tiler1d_slot_size) ∧
    (∀ d, display_at hwc_dev disp = some d →
      is_external_display_mirroring hwc_dev (ext_disp_of hwc_dev disp) = false →
      hwc_dev.flags_rgb_order = 0 → hwc_dev.flags_nv12_only = 0 →
      hwc_dev.force_sgx = 0 → 0 < d.layer_stats.composable →
      d.layer_stats.composable = d.layer_stats.count →
      d.layer_stats.composable ≤ d.composition.avail_ovls →
      d.layer_stats.scaled ≤ d.composition.scaling_ovls →
      d.layer_stats.nv12 ≤ d.composition.scaling_ovls →
      d.layer_stats.mem1d_total ≤ d.composition.tiler1d_slot_size →
      can_dss_render_all_layers hwc_dev disp = some true) := by
  constructor
  · intro h
    cases hmir : is_external_display_mirroring hwc_dev (ext_disp_of hwc_dev disp) with
    | true =>
      obtain ⟨d, e, hd, _, _, hc⟩ := render_all_mirroring_true hwc_dev disp hmir h
      obtain ⟨h1, h2, h3, h4, h5, h6, h7, _⟩ := (render_all_conditions_iff _ _ _ _).mp hc
      exact ⟨d, hd, h1, Nat.pos_of_ne_zero h2, h4, h3, h5, h6, h7⟩
    | false =>
      obtain ⟨d, hd, hc⟩ := render_all_plain_true hwc_dev disp hmir h
      obtain ⟨h1, h2, h3, h4, h5, h6, h7, _⟩ := (render_all_conditions_iff _ _ _ _).mp hc
      exact ⟨d, hd, h1, Nat.pos_of_ne_zero h2, h4, h3, h5, h6, h7⟩
  · intro d hd hmir hrgb hnv hf h2 h4 h3 h5 h6 h7
    rw [render_all_plain_eq hwc_dev disp d hmir hf hd]
    exact congrArg some ((render_all_conditions_iff _ _ _ _).mpr
      ⟨hf, Nat.pos_iff_ne_zero.mp h2, h3, h4, h5, h6, h7,
        fun ht => absurd ht Bool.false_ne_true, Or.inr (Or.inr hrgb), Or.inl hnv⟩)

/-- C7, witness: a panel showing two composable layers. -/
theorem can_dss_render_all_layers_conditions_witness :
    (∃ d, display_at (panel_device ui_stats) 0 = some d ∧
        (panel_device ui_stats).force_sgx = 0 ∧ 0 < d.layer_stats.composable ∧
        d.layer_stats.composable = d.layer_stats.count ∧
        d.layer_stats.composable ≤ d.composition.avail_ovls ∧
        d.layer_stats.scaled ≤ d.composition.scaling_ovls ∧
        d.layer_stats.nv12 ≤ d.composition.scaling_ovls ∧
        d.layer_stats.mem1d_total ≤ d.composition.tiler1d_slot_size) ∧
    can_dss_render_all_layers (panel_device video_stats) 0 = some true :=
  ⟨(can_dss_render_all_layers_conditions (panel_device ui_stats) 0).1 (by decide),
   (can_dss_render_all_layers_conditions (panel_device video_stats) 0).2
      { layer_stats := video_stats, composition := ledger } rfl rfl rfl rfl rfl
      (by decide) (by decide) (by decide) (by decide) (by decide) (by decide)⟩

/-- C8: in every device state in which the external display is mirroring the
primary, if `can_dss_render_all_layers(HWC_DISPLAY_PRIMARY)` returns true then
every bit set in the primary display's `composable_mask` is also set in the
external display's `composable_mask`. -/
theorem can_dss_render_all_layers_primary_mask (hwc_dev : omap_hwc_device)
    (hmir : is_external_display_mirroring hwc_dev (get_external_display_id hwc_dev) = true)
    (h : can_dss_render_all_layers hwc_dev HWC_DISPLAY_PRIMARY = some true) :
    ∃ primary ext, display_at hwc_dev HWC_DISPLAY_PRIMARY = some primary ∧
      display_at hwc_dev (get_external_display_id hwc_dev) = some ext ∧
      ∀ i, primary.layer_stats.composable_mask.testBit i = true →
        ext.layer_stats.composable_mask.testBit i = true := by
  have hext : ext_disp_of hwc_dev HWC_DISPLAY_PRIMARY = get_external_display_id hwc_dev := by
    unfold ext_disp_of
    rw [if_pos rfl]
  rw [← hext] at hmir ⊢
  obtain ⟨d, e, hd, he, hmask, _⟩ := render_all_mirroring_true hwc_dev _ hmir h
  exact ⟨d, e, hd, he, testBit_of_land_eq_left _ _ hmask⟩

/-- C8, witness: a mirrored frame of two layers, composable on both displays. -/
theorem can_dss_render_all_layers_primary_mask_witness :
    ∃ primary ext,
      display_at (mirror_device ui_stats ui_stats {}) HWC_DISPLAY_PRIMARY = some primary ∧
      display_at (mirror_device ui_stats ui_stats {})
        (get_external_display_id (mirror_device ui_stats ui_stats {})) = some ext ∧
      ∀ i, primary.layer_stats.composable_mask.testBit i = true →
        ext.layer_stats.composable_mask.testBit i = true :=
  can_dss_render_all_layers_primary_mask (mirror_device ui_stats ui_stats {})
    (by decide) (by decide)

/-- C9 (as amended): if the external display A mirrors the primary display B,
then `can_dss_render_all_layers(B)` returning true implies that every layer
composable on B (bit set in B's `composable_mask`) is also composable on A;
`can_dss_render_all_layers(A)` compares A's mask with itself only, and its
result is the same for every value of B's `composable_mask`. -/
theorem can_dss_render_all_layers_mirror_masks (hwc_dev : omap_hwc_device)
    (hA : get_external_display_id hwc_dev ≠ HWC_DISPLAY_PRIMARY)
    (hmir : is_external_display_mirroring hwc_dev (get_external_display_id hwc_dev) = true) :
    (can_dss_render_all_layers hwc_dev HWC_DISPLAY_PRIMARY = some true →
      ∃ a b, display_at hwc_dev (get_external_display_id hwc_dev) = some a ∧
        display_at hwc_dev HWC_DISPLAY_PRIMARY = some b ∧
        ∀ i, b.layer_stats.composable_mask.testBit i = true →
          a.layer_stats.composable_mask.testBit i = true) ∧
    (∀ m, can_dss_render_all_layers (with_composable_mask hwc_dev HWC_DISPLAY_PRIMARY m)
        (get_external_display_id hwc_dev)
      = can_dss_render_all_layers hwc_dev (get_external_display_id hwc_dev)) := by
  constructor
  · intro h
    have hext : ext_disp_of hwc_dev HWC_DISPLAY_PRIMARY = get_external_display_id hwc_dev := by
      unfold ext_disp_of
      rw [if_pos rfl]
    rw [← hext] at hmir ⊢
    obtain ⟨d, e, hd, he, hmask, _⟩ := render_all_mirroring_true hwc_dev _ hmir h
    exact ⟨e, d, he, hd, testBit_of_land_eq_left _ _ hmask⟩
  · intro m
    have hda : display_at (with_composable_mask hwc_dev HWC_DISPLAY_PRIMARY m)
        (get_external_display_id hwc_dev)
        = display_at hwc_dev (get_external_display_id hwc_dev) := by
      rw [display_at_with_composable_mask, if_neg hA]
    have hext : ext_disp_of hwc_dev (get_external_display_id hwc_dev)
        = get_external_display_id hwc_dev := by
      unfold ext_disp_of
      rw [if_neg hA]
    have hext2 : ext_disp_of (with_composable_mask hwc_dev HWC_DISPLAY_PRIMARY m)
        (get_external_display_id hwc_dev) = get_external_display_id hwc_dev := hext
    unfold can_dss_render_all_layers
    simp only [hext, hext2, hda]
    rfl

/-- C9, witness: a mirrored frame of two layers, composable on both displays;
the verdict on the external display is the same when the primary's mask is
cleared. -/
theorem can_dss_render_all_layers_mirror_masks_witness :
    (∃ a b, display_at (mirror_device ui_stats ui_stats {})
          (get_external_display_id (mirror_device ui_stats ui_stats {})) = some a ∧
        display_at (mirror_device ui_stats ui_stats {}) HWC_DISPLAY_PRIMARY = some b ∧
        ∀ i, b.layer_stats.composable_mask.testBit i = true →
          a.layer_stats.composable_mask.testBit i = true) ∧
    can_dss_render_all_layers
        (with_composable_mask (mirror_device ui_stats ui_stats {}) HWC_DISPLAY_PRIMARY 0)
        (get_external_display_id (mirror_device ui_stats ui_stats {}))
      = can_dss_render_all_layers (mirror_device ui_stats ui_stats {})
        (get_external_display_id (mirror_device ui_stats ui_stats {})) :=
  ⟨(can_dss_render_all_layers_mirror_masks (mirror_device ui_stats ui_stats {})
      (by decide) (by decide)).1 (by decide),
   (can_dss_render_all_layers_mirror_masks (mirror_device ui_stats ui_stats {})
      (by decide) (by decide)).2 0⟩

/-- C9, counterexample: the external display (slot 1) mirrors the primary
(slot 0); of the two layers of the frame both are composable on the external
display, only the first on the primary. `can_dss_render_all_layers` returns
true for the external display, although layer 1 is composable on it and not on
the primary. -/
theorem can_dss_render_all_layers_external_not_subset :
    get_external_display_id (mirror_device partial_stats ui_stats {}) = 1 ∧
    is_external_display_mirroring (mirror_device partial_stats ui_stats {}) 1 = true ∧
    can_dss_render_all_layers (mirror_device partial_stats ui_stats {}) 1 = some true ∧
    (∃ a b, display_at (mirror_device partial_stats ui_stats {}) 1 = some a ∧
      display_at (mirror_device partial_stats ui_stats {}) HWC_DISPLAY_PRIMARY = some b ∧
      a.layer_stats.composable_mask.testBit 1 = true ∧
      b.layer_stats.composable_mask.testBit 1 = false) :=
  ⟨rfl, by decide, by decide, _, _, rfl, rfl, by decide, by decide⟩

/-- C10: in every device state in which mirroring is active for `disp` (the
external display tested by `can_dss_render_all_layers(disp)` is mirroring) and
that external display's transform is not the identity (`rotation != 0` or
`hflip` set), if `can_dss_render_all_layers(disp)` returns true then
`layer_stats.nv12 == layer_stats.composable` on `disp`. -/
theorem can_dss_render_all_layers_transform_nv12 (hwc_dev : omap_hwc_device) (disp : Int)
    (ext : display)
    (hmir : is_external_display_mirroring hwc_dev (ext_disp_of hwc_dev disp) = true)
    (hext : display_at hwc_dev (ext_disp_of hwc_dev disp) = some ext)
    (ht : ext.transform.rotation ≠ 0 ∨ ext.transform.hflip ≠ 0)
    (h : can_dss_render_all_layers hwc_dev disp = some true) :
    ∃ d, display_at hwc_dev disp = some d ∧
      d.layer_stats.nv12 = d.layer_stats.composable := by
  obtain ⟨d, e, hd, he, _, hc⟩ := render_all_mirroring_true hwc_dev disp hmir h
  have hee : e = ext := Option.some.inj (he.symm.trans hext)
  subst hee
  have htf : (decide (e.transform.rotation ≠ 0) || decide (e.transform.hflip ≠ 0)) = true := by
    rw [Bool.or_eq_true, decide_eq_true_eq, decide_eq_true_eq]
    exact ht
  rw [htf] at hc
  obtain ⟨_, _, _, _, _, _, _, h8, _⟩ := (render_all_conditions_iff _ _ _ _).mp hc
  exact ⟨d, hd, h8 rfl⟩

/-- C10, witness: a video frame mirrored to an external display rotated by 90
degrees, evaluated on the primary display. -/
theorem can_dss_render_all_layers_transform_nv12_witness :
    ∃ d, display_at (mirror_device video_stats video_stats { rotation := 1 })
        HWC_DISPLAY_PRIMARY = some d ∧
      d.layer_stats.nv12 = d.layer_stats.composable :=
  can_dss_render_all_layers_transform_nv12
    (mirror_device video_stats video_stats { rotation := 1 }) HWC_DISPLAY_PRIMARY
    { mgr_ix := 1, layer_stats := video_stats, composition := ledger,
      transform := { rotation := 1 } }
    (by decide) rfl (by decide) (by decide)

/-- C11, evaluation: the external HDMI display mirrors the primary panel and
the frame is one composable BGR layer. With the byte-order flag off,
`can_dss_render_all_layers` returns true for the HDMI display and for the
panel whose clone it is; with the flag on it returns false for both. -/
theorem can_dss_render_all_layers_bgr_on_hdmi :
    is_hdmi_display (mirror_device bgr_stats bgr_stats {}) 1 = true ∧
    (mirror_device bgr_stats bgr_stats {}).flags_rgb_order = 0 ∧
    can_dss_render_all_layers (mirror_device bgr_stats bgr_stats {}) 1 = some true ∧
    can_dss_render_all_layers (mirror_device bgr_stats bgr_stats {}) HWC_DISPLAY_PRIMARY
      = some true ∧
    can_dss_render_all_layers
      { mirror_device bgr_stats bgr_stats {} with flags_rgb_order := 1 } 1 = some false ∧
    can_dss_render_all_layers
      { mirror_device bgr_stats bgr_stats {} with flags_rgb_order := 1 } HWC_DISPLAY_PRIMARY
      = some false := by
  decide

/-! ## Theorems on `can_dss_render_layer` -/

/-- The `return` expression of `can_dss_render_layer` on an existing display. -/
lemma render_layer_conditions_eq (hwc_dev : omap_hwc_device) (disp : Int) (layer : hwc_layer)
    (d : display) (on_tv tform : Bool) (hd : display_at hwc_dev disp = some d) :
    render_layer_conditions hwc_dev disp layer on_tv tform =
      some (is_composable_layer hwc_dev disp layer && (!tform || is_nv12_layer layer) &&
        (decide (hwc_dev.flags_nv12_only = 0) ||
          (!d.composition.use_sgx || is_nv12_layer layer)) &&
        (!(if d.composition.swap_rb then is_rgb_layer layer else is_bgr_layer layer) ||
          decide (hwc_dev.flags_rgb_order = 0)) &&
        !(on_tv && is_bgr_layer layer)) := by
  unfold render_layer_conditions
  rw [hd]
  cases is_composable_layer hwc_dev disp layer <;> cases tform <;>
    cases is_nv12_layer layer <;> simp

/-- The result of `can_dss_render_layer` without mirroring. -/
lemma can_dss_render_layer_plain (hwc_dev : omap_hwc_device) (disp : Int) (layer : hwc_layer)
    (d : display) (hd : display_at hwc_dev disp = some d)
    (hmir : is_external_display_mirroring hwc_dev (ext_disp_of hwc_dev disp) = false) :
    can_dss_render_layer hwc_dev disp layer =
      some (is_composable_layer hwc_dev disp layer &&
        (decide (hwc_dev.flags_nv12_only = 0) ||
          (!d.composition.use_sgx || is_nv12_layer layer)) &&
        (!(if d.composition.swap_rb then is_rgb_layer layer else is_bgr_layer layer) ||
          decide (hwc_dev.flags_rgb_order = 0)) &&
        !(is_hdmi_display hwc_dev disp && is_bgr_layer layer)) := by
  unfold can_dss_render_layer
  simp only [hmir, Bool.false_eq_true, if_false]
  rw [render_layer_conditions_eq hwc_dev disp layer d _ _ hd]
  simp

/-- The result of `can_dss_render_layer` under mirroring. -/
lemma can_dss_render_layer_mirroring (hwc_dev : omap_hwc_device) (disp : Int)
    (layer : hwc_layer) (d e : display) (hd : display_at hwc_dev disp = some d)
    (hmir : is_external_display_mirroring hwc_dev (ext_disp_of hwc_dev disp) = true)
    (he : display_at hwc_dev (ext_disp_of hwc_dev disp) = some e) :
    can_dss_render_layer hwc_dev disp layer =
      some (is_composable_layer hwc_dev (ext_disp_of hwc_dev disp) layer &&
        is_composable_layer hwc_dev disp layer &&
        (!(decide (e.transform.rotation ≠ 0) || decide (e.transform.hflip ≠ 0)) ||
          is_nv12_layer layer) &&
        (decide (hwc_dev.flags_nv12_only = 0) ||
          (!d.composition.use_sgx || is_nv12_layer layer)) &&
        (!(if d.composition.swap_rb then is_rgb_layer layer else is_bgr_layer layer) ||
          decide (hwc_dev.flags_rgb_order = 0)) &&
        !((is_hdmi_display hwc_dev disp ||
            is_hdmi_display hwc_dev (clone_of hwc_dev disp)) && is_bgr_layer layer)) := by
  unfold can_dss_render_layer
  simp only [hmir, if_true, he]
  rw [render_layer_conditions_eq hwc_dev disp layer d _ _ hd]
  cases is_composable_layer hwc_dev (ext_disp_of hwc_dev disp) layer <;>
    cases is_hdmi_display hwc_dev disp <;> simp

/-- C12: for every layer, display and device state (the display of `disp`
exists, and so does the mirroring external display when mirroring is active),
`can_dss_render_layer(disp, layer)` returns, and returns true if and only if
the layer is admissible in the words of the specification
(`layer_admissible`): base composability on `disp` and, under mirroring, on
the mirroring external display; mirror transform identity or NV12 layer;
NV12-only flag off, or no GPU fallback on `disp`, or NV12 layer; byte-order
flag off, or layer not RGB on a swapped display and not BGR on an unswapped
one; and not a BGR layer on a TV output. -/
theorem can_dss_render_layer_iff (hwc_dev : omap_hwc_device) (disp : Int)
    (layer : hwc_layer) (d : display) (hd : display_at hwc_dev disp = some d)
    (he : is_external_display_mirroring hwc_dev (ext_disp_of hwc_dev disp) = true →
      ∃ e, display_at hwc_dev (ext_disp_of hwc_dev disp) = some e) :
    (∃ b, can_dss_render_layer hwc_dev disp layer = some b) ∧
    (can_dss_render_layer hwc_dev disp layer = some true ↔
      layer_admissible hwc_dev disp layer d (mirroring_display hwc_dev disp)) := by
  cases hmir : is_external_display_mirroring hwc_dev (ext_disp_of hwc_dev disp) with
  | false =>
    rw [can_dss_render_layer_plain hwc_dev disp layer d hd hmir]
    refine ⟨⟨_, rfl⟩, ?_⟩
    unfold layer_admissible mirroring_display
    rw [hmir]
    cases d.composition.swap_rb <;> cases d.composition.use_sgx <;>
      cases is_composable_layer hwc_dev disp layer <;>
      cases is_nv12_layer layer <;> cases is_rgb_layer layer <;>
      cases is_bgr_layer layer <;> cases is_hdmi_display hwc_dev disp <;>
      simp
  | true =>
    obtain ⟨e, hex⟩ := he hmir
    rw [can_dss_render_layer_mirroring hwc_dev disp layer d e hd hmir hex]
    refine ⟨⟨_, rfl⟩, ?_⟩
    unfold layer_admissible mirroring_display
    rw [hmir, if_pos rfl, hex]
    cases d.composition.swap_rb <;> cases d.composition.use_sgx <;>
      cases is_composable_layer hwc_dev disp layer <;>
      cases is_composable_layer hwc_dev (ext_disp_of hwc_dev disp) layer <;>
      cases is_nv12_layer layer <;> cases is_rgb_layer layer <;>
      cases is_bgr_layer layer <;> cases is_hdmi_display hwc_dev disp <;>
      cases is_hdmi_display hwc_dev (clone_of hwc_dev disp) <;>
      simp [and_assoc]

/-- C12, witness: an RGB layer on the primary panel, mirrored to an external
display rotated by 90 degrees. -/
theorem can_dss_render_layer_iff_witness :
    (∃ b, can_dss_render_layer (mirror_device ui_stats ui_stats { rotation := 1 })
        HWC_DISPLAY_PRIMARY rgb_layer = some b) ∧
    (can_dss_render_layer (mirror_device ui_stats ui_stats { rotation := 1 })
        HWC_DISPLAY_PRIMARY rgb_layer = some true ↔
      layer_admissible (mirror_device ui_stats ui_stats { rotation := 1 })
        HWC_DISPLAY_PRIMARY rgb_layer { layer_stats := ui_stats, composition := ledger }
        (mirroring_display (mirror_device ui_stats ui_stats { rotation := 1 })
          HWC_DISPLAY_PRIMARY)) :=
  can_dss_render_layer_iff (mirror_device ui_stats ui_stats { rotation := 1 })
    HWC_DISPLAY_PRIMARY rgb_layer { layer_stats := ui_stats, composition := ledger } rfl
    (fun _ => ⟨_, rfl⟩)

/-- C13: for every BGR-ordered layer and every device state in which `disp` is
an HDMI/TV display, or in which mirroring is active and the clone of `disp` is
an HDMI/TV display (the display of `disp` exists, and so does the mirroring
external display when mirroring is active), `can_dss_render_layer(disp, layer)`
returns false, whatever the policy flags are. -/
theorem can_dss_render_layer_bgr_on_tv (hwc_dev : omap_hwc_device) (disp : Int)
    (layer : hwc_layer) (d : display) (hd : display_at hwc_dev disp = some d)
    (he : is_external_display_mirroring hwc_dev (ext_disp_of hwc_dev disp) = true →
      ∃ e, display_at hwc_dev (ext_disp_of hwc_dev disp) = some e)
    (hbgr : is_bgr_layer layer = true)
    (htv : is_hdmi_display hwc_dev disp = true ∨
      (is_external_display_mirroring hwc_dev (ext_disp_of hwc_dev disp) = true ∧
        is_hdmi_display hwc_dev (clone_of hwc_dev disp) = true)) :
    can_dss_render_layer hwc_dev disp layer = some false := by
  cases hmir : is_external_display_mirroring hwc_dev (ext_disp_of hwc_dev disp) with
  | false =>
    rw [hmir] at htv
    have htv1 : is_hdmi_display hwc_dev disp = true := by
      rcases htv with h | h
      · exact h
      · exact absurd h.1 Bool.false_ne_true
    rw [can_dss_render_layer_plain hwc_dev disp layer d hd hmir, htv1, hbgr]
    simp
  | true =>
    obtain ⟨e, hex⟩ := he hmir
    have htv2 : (is_hdmi_display hwc_dev disp ||
        is_hdmi_display hwc_dev (clone_of hwc_dev disp)) = true := by
      rcases htv with h | h
      · rw [h, Bool.true_or]
      · rw [h.2, Bool.or_true]
    rw [can_dss_render_layer_mirroring hwc_dev disp layer d e hd hmir hex, htv2, hbgr]
    simp

/-- C13, witness: a BGR layer on the primary panel whose mirroring clone is
the HDMI display. -/
theorem can_dss_render_layer_bgr_on_tv_witness :
    can_dss_render_layer (mirror_device bgr_stats bgr_stats {}) HWC_DISPLAY_PRIMARY bgr_layer
      = some false :=
  can_dss_render_layer_bgr_on_tv (mirror_device bgr_stats bgr_stats {}) HWC_DISPLAY_PRIMARY
    bgr_layer { layer_stats := bgr_stats, composition := ledger } rfl (fun _ => ⟨_, rfl⟩) rfl
    (Or.inr ⟨by decide, by decide⟩)

/-! ## The floors of `can_dss_scale` under 32-bit arithmetic -/

/-- A 32-bit product is at most the exact product. -/
lemma mul32_le (a b : Nat) : mul32 a b ≤ a * b := by
  unfold mul32
  exact Nat.mod_le _ _

/-- C20: whenever `can_dss_scale` returns true, the accepted geometry respects
the empirical floors in exact arithmetic, although the code forms its products
in 32 bits: `dst_h >= src_h / 4`, and, when `pclk != 0`, `4 * dst_w >= src_w`
as unbounded integers. -/
theorem can_dss_scale_true_floors (hwc_dev : omap_hwc_device)
    (src_w src_h dst_w dst_h : Nat) (is_2d : Bool) (dis : dsscomp_display_info)
    (pclk : Nat)
    (h : can_dss_scale hwc_dev src_w src_h dst_w dst_h is_2d dis pclk = some true) :
    src_h / 4 ≤ dst_h ∧ (pclk ≠ 0 → src_w ≤ 4 * dst_w) := by
  by_cases hx : xdecim_of hwc_dev.dsscomp.limits is_2d = 0
  · simp [can_dss_scale, DIV_ROUND_UP, hx] at h
  by_cases hy : ydecim_of hwc_dev.dsscomp.limits is_2d = 0
  · simp [can_dss_scale, DIV_ROUND_UP, hy] at h
  rw [can_dss_scale_eq _ _ _ _ _ _ _ _ hx hy] at h
  by_cases he : dis.channel ≠ OMAP_DSS_CHANNEL_DIGIT ∧ dst_w < hwc_dev.dsscomp.limits.min_width
  · rw [if_pos he] at h
    exact absurd h (by simp)
  rw [if_neg he] at h
  by_cases hv : dst_h < src_h / 4
  · rw [if_pos hv] at h
    exact absurd h (by simp)
  rw [if_neg hv] at h
  refine ⟨Nat.le_of_not_lt hv, fun hp => ?_⟩
  by_cases hm : mul32 dst_h hwc_dev.dsscomp.limits.max_downscale
      < ceilDiv src_h (ydecim_of hwc_dev.dsscomp.limits is_2d)
  · rw [if_pos hm] at h
    exact absurd h (by simp)
  rw [if_neg hm, if_neg hp] at h
  by_cases hw : mul32 dst_w 4 < src_w
  · rw [if_pos hw] at h
    exact absurd h (by simp)
  have h1 : src_w ≤ mul32 dst_w 4 := Nat.le_of_not_lt hw
  have h2 : mul32 dst_w 4 ≤ dst_w * 4 := mul32_le dst_w 4
  omega

/-- C20, witness: a 1280x720 layer shown at 640x360 on a 74.25 MHz TV mode. -/
theorem can_dss_scale_true_floors_witness :
    can_dss_scale (device_with_limits { scenario_limits with fclk := 186000000 })
      1280 720 640 360 false tv_info 74250 = some true ∧
    720 / 4 ≤ 360 ∧ ((74250 : Nat) ≠ 0 → 1280 ≤ 4 * 640) :=
  ⟨by decide,
   can_dss_scale_true_floors (device_with_limits { scenario_limits with fclk := 186000000 })
    1280 720 640 360 false tv_info 74250 (by decide)⟩

/-! ## Theorems on `setup_dsscomp_manager` -/

/-- A slot that holds a display has a valid index. -/
lemma display_at_some_range (hwc_dev : omap_hwc_device) (j : Int) (d : display)
    (h : display_at hwc_dev j = some d) : 0 ≤ j ∧ j < (MAX_DISPLAYS : Int) := by
  unfold display_at at h
  by_cases hr : 0 ≤ j ∧ j < (MAX_DISPLAYS : Int)
  · exact hr
  · rw [if_neg hr] at h
    exact absurd h (by simp)

/-- Reading the slot that `set_display` has written. -/
lemma display_at_set_display_same (hwc_dev : omap_hwc_device) (j : Int) (d : display)
    (hr : 0 ≤ j ∧ j < (MAX_DISPLAYS : Int)) :
    display_at (set_display hwc_dev j d) j = some d := by
  unfold display_at set_display
  have hj : ((j.toNat : Nat) : Int) = j := Int.toNat_of_nonneg hr.1
  simp only [if_pos hr, hj, if_true]

/-- Reading another slot than the one `set_display` has written. -/
lemma display_at_set_display_other (hwc_dev : omap_hwc_device) (j k : Int) (d : display)
    (hne : k ≠ j) : display_at (set_display hwc_dev j d) k = display_at hwc_dev k := by
  unfold display_at set_display
  by_cases hr : 0 ≤ k ∧ k < (MAX_DISPLAYS : Int)
  · have hk : ((k.toNat : Nat) : Int) = k := Int.toNat_of_nonneg hr.1
    simp only [if_pos hr, hk, if_neg hne]
  · simp only [if_neg hr]

/-- The state `setup_dsscomp_manager` leaves when both displays exist. -/
lemma setup_dsscomp_manager_eq (hwc_dev : omap_hwc_device) (disp : Int) (d t : display)
    (hd : display_at hwc_dev disp = some d)
    (ht : display_at hwc_dev (manager_target hwc_dev disp) = some t) :
    setup_dsscomp_manager hwc_dev disp =
      if reclaim_pending hwc_dev then
        some (set_display
          { hwc_dev with dsscomp := { hwc_dev.dsscomp with last_ext_ovls := 0 } }
          (manager_target hwc_dev disp)
          (with_request t
            (append_manager (append_manager t.request d.mgr_ix d.composition.swap_rb) 1 false)))
      else
        some (set_display hwc_dev (manager_target hwc_dev disp)
          (with_request t (append_manager t.request d.mgr_ix d.composition.swap_rb))) := by
  unfold setup_dsscomp_manager reclaim_pending display.request
  rw [hd, ht]

/-- The descriptor `append_manager` writes and the count it leaves. -/
lemma append_manager_spec (req : dsscomp_setup_dispc_data) (ix : Nat) (swap : Bool) :
    (append_manager req ix swap).num_mgrs = req.num_mgrs + 1 ∧
    (append_manager req ix swap).mgrs req.num_mgrs
      = { ix := ix, alpha_blending := 1, swap_rb := swap } ∧
    ∀ i, i ≠ req.num_mgrs → (append_manager req ix swap).mgrs i = req.mgrs i := by
  unfold append_manager
  refine ⟨rfl, ?_, ?_⟩
  · simp only [Function.update_same]
  · intro i hi
    simp only [Function.update_noteq hi]

/-- The state one call of `setup_dsscomp_manager` leaves, in terms of the
request `req` stored in the target slot. -/
lemma stored_request_after_setup (hwc_dev : omap_hwc_device) (disp : Int)
    (d t : display) (hd : display_at hwc_dev disp = some d)
    (ht : display_at hwc_dev (manager_target hwc_dev disp) = some t) :
    manager_target hwc_dev disp
      = (if is_external_display_mirroring hwc_dev disp = true then HWC_DISPLAY_PRIMARY
         else disp) ∧
    ∃ s req, setup_dsscomp_manager hwc_dev disp = some s ∧
      display_at s (manager_target hwc_dev disp) = some (with_request t req) ∧
      req.mgrs t.request.num_mgrs
        = { ix := d.mgr_ix, alpha_blending := 1, swap_rb := d.composition.swap_rb } ∧
      req.num_mgrs = (if reclaim_pending hwc_dev then t.request.num_mgrs + 2
                      else t.request.num_mgrs + 1) ∧
      (∀ i, i < t.request.num_mgrs → req.mgrs i = t.request.mgrs i) ∧
      (∀ k, k ≠ manager_target hwc_dev disp → display_at s k = display_at hwc_dev k) ∧
      (is_external_display_mirroring hwc_dev disp = true → disp ≠ HWC_DISPLAY_PRIMARY →
        display_at s disp = some d) := by
  have hr := display_at_some_range hwc_dev _ t ht
  have hown := append_manager_spec t.request d.mgr_ix d.composition.swap_rb
  have hframe : ∀ (s : omap_hwc_device) (x : display), s.displays = hwc_dev.displays →
      ((∀ k, k ≠ manager_target hwc_dev disp →
          display_at (set_display s (manager_target hwc_dev disp) x) k
            = display_at hwc_dev k) ∧
       (is_external_display_mirroring hwc_dev disp = true → disp ≠ HWC_DISPLAY_PRIMARY →
          display_at (set_display s (manager_target hwc_dev disp) x) disp = some d)) := by
    intro s x hs
    have hk : ∀ k, k ≠ manager_target hwc_dev disp →
        display_at (set_display s (manager_target hwc_dev disp) x) k
          = display_at hwc_dev k := by
      intro k hne
      rw [display_at_set_display_other _ _ _ _ hne]
      unfold display_at
      rw [hs]
    refine ⟨hk, fun hmir hne => ?_⟩
    have htgt : manager_target hwc_dev disp = HWC_DISPLAY_PRIMARY := by
      unfold manager_target
      rw [if_pos hmir]
    rw [hk disp (by rw [htgt]; exact hne), hd]
  refine ⟨rfl, ?_⟩
  rw [setup_dsscomp_manager_eq hwc_dev disp d t hd ht]
  by_cases hrec : reclaim_pending hwc_dev
  · rw [if_pos hrec, if_pos hrec]
    have hcl := append_manager_spec
      (append_manager t.request d.mgr_ix d.composition.swap_rb) 1 false
    refine ⟨_, _, rfl, display_at_set_display_same _ _ _ hr, ?_, ?_, ?_,
      (hframe _ _ rfl).1, (hframe _ _ rfl).2⟩
    · rw [hcl.2.2 _ (by rw [hown.1]; omega), hown.2.1]
    · rw [hcl.1, hown.1]
    · intro i hi
      rw [hcl.2.2 _ (by rw [hown.1]; omega), hown.2.2 _ (by omega)]
  · rw [if_neg hrec, if_neg hrec]
    refine ⟨_, _, rfl, display_at_set_display_same _ _ _ hr, hown.2.1, hown.1, ?_,
      (hframe _ _ rfl).1, (hframe _ _ rfl).2⟩
    intro i hi
    rw [hown.2.2 _ (by omega)]

/-- The second of two consecutive calls finds the same displays, and no
reclaim pending. -/
lemma setup_dsscomp_manager_after_reclaim (hwc_dev : omap_hwc_device) (disp : Int)
    (d t : display) (req : dsscomp_setup_dispc_data)
    (hd : display_at hwc_dev disp = some d)
    (ht : display_at hwc_dev (manager_target hwc_dev disp) = some t) :
    setup_dsscomp_manager
        (set_display { hwc_dev with dsscomp := { hwc_dev.dsscomp with last_ext_ovls := 0 } }
          (manager_target hwc_dev disp) (with_request t req)) disp
      = some (set_display
          (set_display { hwc_dev with dsscomp := { hwc_dev.dsscomp with last_ext_ovls := 0 } }
            (manager_target hwc_dev disp) (with_request t req))
          (manager_target hwc_dev disp)
          (with_request t (append_manager req d.mgr_ix d.composition.swap_rb))) := by
  have hr := display_at_some_range hwc_dev _ t ht
  have hnot : ¬ reclaim_pending
      (set_display { hwc_dev with dsscomp := { hwc_dev.dsscomp with last_ext_ovls := 0 } }
        (manager_target hwc_dev disp) (with_request t req)) :=
    fun h => h.1 rfl
  have ht1 : display_at
      (set_display { hwc_dev with dsscomp := { hwc_dev.dsscomp with last_ext_ovls := 0 } }
        (manager_target hwc_dev disp) (with_request t req))
      (manager_target hwc_dev disp) = some (with_request t req) :=
    display_at_set_display_same _ _ _ hr
  by_cases hsame : disp = manager_target hwc_dev disp
  · have hdt : d = t := by
      rw [← hsame] at ht
      exact Option.some.inj (hd.symm.trans ht)
    have hd1 : display_at
        (set_display { hwc_dev with dsscomp := { hwc_dev.dsscomp with last_ext_ovls := 0 } }
          (manager_target hwc_dev disp) (with_request t req)) disp
        = some (with_request t req) :=
      (congrArg (display_at _) hsame).trans ht1
    rw [setup_dsscomp_manager_eq _ disp (with_request t req) (with_request t req) hd1 ht1,
      if_neg hnot, hdt]
    rfl
  · have hd1 : display_at
        (set_display { hwc_dev with dsscomp := { hwc_dev.dsscomp with last_ext_ovls := 0 } }
          (manager_target hwc_dev disp) (with_request t req)) disp = some d := by
      rw [display_at_set_display_other _ _ _ _ hsame]
      exact hd
    rw [setup_dsscomp_manager_eq _ disp d (with_request t req) hd1 ht1, if_neg hnot]
    rfl

/-- The states two consecutive calls of `setup_dsscomp_manager` leave when a
reclaim is pending at the first, in terms of the requests stored in the target
slot. -/
lemma stored_requests_after_reclaim (hwc_dev : omap_hwc_device) (disp : Int)
    (d t : display) (hd : display_at hwc_dev disp = some d)
    (ht : display_at hwc_dev (manager_target hwc_dev disp) = some t)
    (h1 : hwc_dev.dsscomp.last_ext_ovls ≠ 0) (h2 : get_external_display_id hwc_dev < 0) :
    ∃ s1 req1, setup_dsscomp_manager hwc_dev disp = some s1 ∧
      display_at s1 (manager_target hwc_dev disp) = some (with_request t req1) ∧
      req1.num_mgrs = t.request.num_mgrs + 2 ∧
      req1.mgrs t.request.num_mgrs
        = { ix := d.mgr_ix, alpha_blending := 1, swap_rb := d.composition.swap_rb } ∧
      req1.mgrs (t.request.num_mgrs + 1)
        = { ix := 1, alpha_blending := 1, swap_rb := false } ∧
      (∀ i, i < t.request.num_mgrs → req1.mgrs i = t.request.mgrs i) ∧
      s1.dsscomp.last_ext_ovls = 0 ∧
      ∃ s2 req2, setup_dsscomp_manager s1 disp = some s2 ∧
        display_at s2 (manager_target hwc_dev disp) = some (with_request t req2) ∧
        req2.num_mgrs = t.request.num_mgrs + 3 ∧
        req2.mgrs (t.request.num_mgrs + 2)
          = { ix := d.mgr_ix, alpha_blending := 1, swap_rb := d.composition.swap_rb } ∧
        (∀ i, i < t.request.num_mgrs + 2 → req2.mgrs i = req1.mgrs i) ∧
        s2.dsscomp.last_ext_ovls = 0 := by
  have hr := display_at_some_range hwc_dev _ t ht
  have hrec : reclaim_pending hwc_dev := ⟨h1, h2⟩
  have hown := append_manager_spec t.request d.mgr_ix d.composition.swap_rb
  have hcl := append_manager_spec
    (append_manager t.request d.mgr_ix d.composition.swap_rb) 1 false
  have hsnd := append_manager_spec
    (append_manager (append_manager t.request d.mgr_ix d.composition.swap_rb) 1 false)
    d.mgr_ix d.composition.swap_rb
  have hn2 : (append_manager (append_manager t.request d.mgr_ix d.composition.swap_rb)
      1 false).num_mgrs = t.request.num_mgrs + 2 := by
    rw [hcl.1, hown.1]
  rw [setup_dsscomp_manager_eq hwc_dev disp d t hd ht, if_pos hrec]
  refine ⟨_, _, rfl, display_at_set_display_same _ _ _ hr, hn2, ?_, ?_, ?_, rfl, ?_⟩
  · rw [hcl.2.2 _ (by rw [hown.1]; omega), hown.2.1]
  · have h := hcl.2.1
    rw [hown.1] at h
    exact h
  · intro i hi
    rw [hcl.2.2 _ (by rw [hown.1]; omega), hown.2.2 _ (by omega)]
  · rw [setup_dsscomp_manager_after_reclaim hwc_dev disp d t _ hd ht]
    refine ⟨_, _, rfl, display_at_set_display_same _ _ _ hr, ?_, ?_, ?_, rfl⟩
    · rw [hsnd.1, hn2]
    · have h := hsnd.2.1
      rw [hn2] at h
      exact h
    · intro i hi
      rw [hsnd.2.2 _ (by rw [hn2]; omega)]

/-- C14 (pipeline reclaim): in every device state with `last_ext_ovls != 0`
and no external display attached, `setup_dsscomp_manager` appends, after the
display's own manager descriptor, exactly one cleanup descriptor
(`ix = 1`, `alpha_blending = 1`, `swap_rb = false`) and sets `last_ext_ovls`
to 0; the call that immediately follows appends the display's own descriptor
only, and no cleanup descriptor. The requests are read from the slot `target`
of the states the calls leave: `t1` after the first call, `t2` after the
second, `t` before. -/
theorem setup_dsscomp_manager_reclaim (hwc_dev : omap_hwc_device) (disp target : Int)
    (d t : display)
    (htgt : target = if is_external_display_mirroring hwc_dev disp = true
      then HWC_DISPLAY_PRIMARY else disp)
    (hd : display_at hwc_dev disp = some d)
    (ht : display_at hwc_dev target = some t)
    (h1 : hwc_dev.dsscomp.last_ext_ovls ≠ 0) (h2 : get_external_display_id hwc_dev < 0) :
    ∃ s1 t1, setup_dsscomp_manager hwc_dev disp = some s1 ∧
      display_at s1 target = some t1 ∧
      t1.composition.comp_data.dsscomp_data.num_mgrs
        = t.composition.comp_data.dsscomp_data.num_mgrs + 2 ∧
      t1.composition.comp_data.dsscomp_data.mgrs
          t.composition.comp_data.dsscomp_data.num_mgrs
        = { ix := d.mgr_ix, alpha_blending := 1, swap_rb := d.composition.swap_rb } ∧
      t1.composition.comp_data.dsscomp_data.mgrs
          (t.composition.comp_data.dsscomp_data.num_mgrs + 1)
        = { ix := 1, alpha_blending := 1, swap_rb := false } ∧
      (∀ i, i < t.composition.comp_data.dsscomp_data.num_mgrs →
        t1.composition.comp_data.dsscomp_data.mgrs i
          = t.composition.comp_data.dsscomp_data.mgrs i) ∧
      s1.dsscomp.last_ext_ovls = 0 ∧
      ∃ s2 t2, setup_dsscomp_manager s1 disp = some s2 ∧
        display_at s2 target = some t2 ∧
        t2.composition.comp_data.dsscomp_data.num_mgrs
          = t.composition.comp_data.dsscomp_data.num_mgrs + 3 ∧
        t2.composition.comp_data.dsscomp_data.mgrs
            (t.composition.comp_data.dsscomp_data.num_mgrs + 2)
          = { ix := d.mgr_ix, alpha_blending := 1, swap_rb := d.composition.swap_rb } ∧
        (∀ i, i < t.composition.comp_data.dsscomp_data.num_mgrs + 2 →
          t2.composition.comp_data.dsscomp_data.mgrs i
            = t1.composition.comp_data.dsscomp_data.mgrs i) ∧
        s2.dsscomp.last_ext_ovls = 0 := by
  subst htgt
  obtain ⟨s1, req1, hs1, hd1, a1, a2, a3, a4, a5, s2, req2, hs2, hd2, b1, b2, b3, b4⟩ :=
    stored_requests_after_reclaim hwc_dev disp d t hd ht h1 h2
  exact ⟨s1, with_request t req1, hs1, hd1, a1, a2, a3, a4, a5,
    s2, with_request t req2, hs2, hd2, b1, b2, b3, b4⟩

/-- C14, witness: a panel whose last frame used two overlays of an external
display that has been detached; its request is empty before the first call. -/
theorem setup_dsscomp_manager_reclaim_witness :
    ∃ s1 t1, setup_dsscomp_manager (detached_device 2) 0 = some s1 ∧
      display_at s1 0 = some t1 ∧
      t1.composition.comp_data.dsscomp_data.num_mgrs
        = detached_panel.composition.comp_data.dsscomp_data.num_mgrs + 2 ∧
      t1.composition.comp_data.dsscomp_data.mgrs
          detached_panel.composition.comp_data.dsscomp_data.num_mgrs
        = { ix := detached_panel.mgr_ix, alpha_blending := 1,
            swap_rb := detached_panel.composition.swap_rb } ∧
      t1.composition.comp_data.dsscomp_data.mgrs
          (detached_panel.composition.comp_data.dsscomp_data.num_mgrs + 1)
        = { ix := 1, alpha_blending := 1, swap_rb := false } ∧
      (∀ i, i < detached_panel.composition.comp_data.dsscomp_data.num_mgrs →
        t1.composition.comp_data.dsscomp_data.mgrs i
          = detached_panel.composition.comp_data.dsscomp_data.mgrs i) ∧
      s1.dsscomp.last_ext_ovls = 0 ∧
      ∃ s2 t2, setup_dsscomp_manager s1 0 = some s2 ∧
        display_at s2 0 = some t2 ∧
        t2.composition.comp_data.dsscomp_data.num_mgrs
          = detached_panel.composition.comp_data.dsscomp_data.num_mgrs + 3 ∧
        t2.composition.comp_data.dsscomp_data.mgrs
            (detached_panel.composition.comp_data.dsscomp_data.num_mgrs + 2)
          = { ix := detached_panel.mgr_ix, alpha_blending := 1,
              swap_rb := detached_panel.composition.swap_rb } ∧
        (∀ i, i < detached_panel.composition.comp_data.dsscomp_data.num_mgrs + 2 →
          t2.composition.comp_data.dsscomp_data.mgrs i
            = t1.composition.comp_data.dsscomp_data.mgrs i) ∧
        s2.dsscomp.last_ext_ovls = 0 :=
  setup_dsscomp_manager_reclaim (detached_device 2) 0 0 detached_panel detached_panel
    (by decide) rfl rfl (by decide) (by decide)

/-- C15 (as amended): `setup_dsscomp_manager(disp)` writes the descriptor
`{ix = display.mgr_ix, alpha_blending = 1, swap_rb = display.composition.swap_rb}`
at index `num_mgrs` of the target request and increments `num_mgrs`: by one
when no reclaim is pending, by two when one is (`last_ext_ovls != 0` and no
external display attached), the same call then appending the cleanup
descriptor as well. The target is the primary display's request when `disp` is
the mirroring external display and the request of `disp` otherwise. The
descriptors appended before and every display other than the target are left
as they were; so in the mirroring case the display `disp` itself, with its own
request, is unchanged. The request is read from the slot `target` of the state
the call leaves (`t1`; `t` before the call). -/
theorem setup_dsscomp_manager_appends (hwc_dev : omap_hwc_device) (disp target : Int)
    (d t : display)
    (htgt : target = if is_external_display_mirroring hwc_dev disp = true
      then HWC_DISPLAY_PRIMARY else disp)
    (hd : display_at hwc_dev disp = some d)
    (ht : display_at hwc_dev target = some t) :
    ∃ s t1, setup_dsscomp_manager hwc_dev disp = some s ∧
      display_at s target = some t1 ∧
      t1.composition.comp_data.dsscomp_data.mgrs
          t.composition.comp_data.dsscomp_data.num_mgrs
        = { ix := d.mgr_ix, alpha_blending := 1, swap_rb := d.composition.swap_rb } ∧
      t1.composition.comp_data.dsscomp_data.num_mgrs
        = (if hwc_dev.dsscomp.last_ext_ovls ≠ 0 ∧ get_external_display_id hwc_dev < 0
           then t.composition.comp_data.dsscomp_data.num_mgrs + 2
           else t.composition.comp_data.dsscomp_data.num_mgrs + 1) ∧
      (∀ i, i < t.composition.comp_data.dsscomp_data.num_mgrs →
        t1.composition.comp_data.dsscomp_data.mgrs i
          = t.composition.comp_data.dsscomp_data.mgrs i) ∧
      (∀ k, k ≠ target → display_at s k = display_at hwc_dev k) ∧
      (is_external_display_mirroring hwc_dev disp = true → disp ≠ HWC_DISPLAY_PRIMARY →
        display_at s disp = some d) := by
  subst htgt
  obtain ⟨_, s, req, hs, hdisp, a1, a2, a3, a4, a5⟩ :=
    stored_request_after_setup hwc_dev disp d t hd ht
  exact ⟨s, with_request t req, hs, hdisp, a1, a2, a3, a4, a5⟩

/-- C15, witness: the mirroring external display (slot 1, manager 1) adds its
descriptor to the request of the primary display (slot 0) and is itself left
as it was. -/
theorem setup_dsscomp_manager_appends_witness :
    ∃ s t1, setup_dsscomp_manager (mirror_device ui_stats ui_stats {}) 1 = some s ∧
      display_at s 0 = some t1 ∧
      t1.composition.comp_data.dsscomp_data.mgrs
          (mirror_primary ui_stats).composition.comp_data.dsscomp_data.num_mgrs
        = { ix := (mirror_external ui_stats {}).mgr_ix, alpha_blending := 1,
            swap_rb := (mirror_external ui_stats {}).composition.swap_rb } ∧
      t1.composition.comp_data.dsscomp_data.num_mgrs
        = (if (mirror_device ui_stats ui_stats {}).dsscomp.last_ext_ovls ≠ 0 ∧
              get_external_display_id (mirror_device ui_stats ui_stats {}) < 0
           then (mirror_primary ui_stats).composition.comp_data.dsscomp_data.num_mgrs + 2
           else (mirror_primary ui_stats).composition.comp_data.dsscomp_data.num_mgrs + 1) ∧
      (∀ i, i < (mirror_primary ui_stats).composition.comp_data.dsscomp_data.num_mgrs →
        t1.composition.comp_data.dsscomp_data.mgrs i
          = (mirror_primary ui_stats).composition.comp_data.dsscomp_data.mgrs i) ∧
      (∀ k, k ≠ 0 → display_at s k = display_at (mirror_device ui_stats ui_stats {}) k) ∧
      (is_external_display_mirroring (mirror_device ui_stats ui_stats {}) 1 = true →
        (1 : Int) ≠ HWC_DISPLAY_PRIMARY →
        display_at s 1 = some (mirror_external ui_stats {})) :=
  setup_dsscomp_manager_appends (mirror_device ui_stats ui_stats {}) 1 0
    (mirror_external ui_stats {}) (mirror_primary ui_stats) (by decide) rfl rfl

/-- C15, counterexample: a panel (manager 0, swapped byte order) with an empty
request, `last_ext_ovls = 2` and no external display attached. One call of
`setup_dsscomp_manager` leaves `num_mgrs = 2`: it has appended two descriptors,
the panel's own at index 0 and the cleanup descriptor at index 1. -/
theorem reclaim_call_appends_two_descriptors :
    (detached_device 2).dsscomp.last_ext_ovls ≠ 0 ∧
    get_external_display_id (detached_device 2) < 0 ∧
    (display_at (detached_device 2) 0).map
        (fun d => d.composition.comp_data.dsscomp_data.num_mgrs) = some 0 ∧
    ((setup_dsscomp_manager (detached_device 2) 0).bind (fun s => display_at s 0)).map
        (fun d => (d.composition.comp_data.dsscomp_data.num_mgrs,
          d.composition.comp_data.dsscomp_data.mgrs 0,
          d.composition.comp_data.dsscomp_data.mgrs 1))
      = some (2, { ix := 0, alpha_blending := 1, swap_rb := true },
          { ix := 1, alpha_blending := 1, swap_rb := false }) := by
  decide

/-! ## Theorems on the driver session -/

/-- The count `get_dsscomp_display_mode_db` asks the driver for. -/
lemma requested_modedb_len (n : Nat) :
    (if n > MAX_MODE_DB_LENGTH then MAX_MODE_DB_LENGTH else n) = min n MAX_MODE_DB_LENGTH := by
  by_cases h : n > MAX_MODE_DB_LENGTH
  · rw [if_pos h, Nat.min_eq_right (Nat.le_of_lt h)]
  · rw [if_neg h, Nat.min_eq_left (Nat.le_of_not_gt h)]

/-- The function `get_dsscomp_display_mode_db` in terms of the driver's answer
to the request for `min(*mode_db_len, 32)` entries. -/
lemma get_dsscomp_display_mode_db_eq (driver : query_display_driver)
    (hwc_dev : omap_hwc_device) (mgr_ix : Int) (mode_db : Nat → dsscomp_videomode)
    (mode_db_len : Nat) :
    get_dsscomp_display_mode_db driver hwc_dev mgr_ix mode_db mode_db_len =
      match driver hwc_dev.dsscomp.fd mgr_ix (min mode_db_len 32) with
      | ioctl_result.error errno =>
        some { ret := -(errno : Int), mode_db := mode_db, mode_db_len := mode_db_len }
      | ioctl_result.ok len modedb =>
        if len > 32 then none
        else
          some { ret := 0
                 mode_db := fun i => if i < len then modedb i else mode_db i
                 mode_db_len := len } := by
  unfold get_dsscomp_display_mode_db
  rw [requested_modedb_len]
  rfl

/-- C18 (as amended): `get_dsscomp_display_mode_db` asks the driver for
`min(*mode_db_len, 32)` entries (its result is determined by what the driver
answers to that request). On success it returns 0, copies out and reports in
`*mode_db_len` the count the driver has stored in `query.info.modedb_len`, as
it is (a count of at most 32, the size of the local table), and leaves the
rest of the caller's table alone; that count exceeds neither the caller's
requested maximum nor 32 when the driver reports no more modes than it was
asked for. On a failed driver query it returns `-errno`, negative for a
positive `errno`, and leaves `*mode_db_len` and the caller's table unchanged. -/
theorem get_dsscomp_display_mode_db_bounds (driver : query_display_driver)
    (hwc_dev : omap_hwc_device) (mgr_ix : Int) (mode_db : Nat → dsscomp_videomode)
    (mode_db_len : Nat) :
    (∀ driver2 : query_display_driver,
      driver2 hwc_dev.dsscomp.fd mgr_ix (min mode_db_len 32)
        = driver hwc_dev.dsscomp.fd mgr_ix (min mode_db_len 32) →
      get_dsscomp_display_mode_db driver2 hwc_dev mgr_ix mode_db mode_db_len
        = get_dsscomp_display_mode_db driver hwc_dev mgr_ix mode_db mode_db_len) ∧
    (∀ len modedb,
      driver hwc_dev.dsscomp.fd mgr_ix (min mode_db_len 32) = ioctl_result.ok len modedb →
      len ≤ 32 →
      ∃ r, get_dsscomp_display_mode_db driver hwc_dev mgr_ix mode_db mode_db_len = some r ∧
        r.ret = 0 ∧ r.mode_db_len = len ∧
        (∀ i, i < len → r.mode_db i = modedb i) ∧
        (∀ i, len ≤ i → r.mode_db i = mode_db i) ∧
        (len ≤ min mode_db_len 32 → r.mode_db_len ≤ mode_db_len ∧ r.mode_db_len ≤ 32) ∧
        (mode_db_len < len → mode_db_len < r.mode_db_len)) ∧
    (∀ errno,
      driver hwc_dev.dsscomp.fd mgr_ix (min mode_db_len 32) = ioctl_result.error errno →
      ∃ r, get_dsscomp_display_mode_db driver hwc_dev mgr_ix mode_db mode_db_len = some r ∧
        r.ret = -(errno : Int) ∧ (0 < errno → r.ret < 0) ∧
        r.mode_db_len = mode_db_len ∧ r.mode_db = mode_db) := by
  refine ⟨?_, ?_, ?_⟩
  · intro driver2 h
    rw [get_dsscomp_display_mode_db_eq, get_dsscomp_display_mode_db_eq, h]
  · intro len modedb hok hle
    rw [get_dsscomp_display_mode_db_eq, hok]
    simp only [if_neg (Nat.not_lt.mpr hle)]
    refine ⟨_, rfl, rfl, rfl, ?_, ?_, ?_, ?_⟩
    · intro i hi
      simp only [if_pos hi]
    · intro i hi
      simp only [if_neg (Nat.not_lt.mpr hi)]
    · intro hcap
      exact ⟨le_trans hcap (Nat.min_le_left _ _), hle⟩
    · intro hgt
      exact hgt
  · intro errno herr
    rw [get_dsscomp_display_mode_db_eq, herr]
    refine ⟨_, rfl, rfl, ?_, rfl, rfl⟩
    intro hpos
    show -(errno : Int) < 0
    omega

/-- C18, witness: a caller with room for 3 modes gets 3 of the five modes of
display 0 from a driver that caps its count, and `-ENODEV` with its count
untouched for display 7. -/
theorem get_dsscomp_display_mode_db_bounds_witness :
    (∃ r, get_dsscomp_display_mode_db capping_driver (detached_device 0) 0 (fun _ => {}) 3
        = some r ∧
      r.ret = 0 ∧ r.mode_db_len = 3 ∧
      (∀ i, i < 3 → r.mode_db i = { raw := i + 1 }) ∧
      (∀ i, 3 ≤ i → r.mode_db i = {}) ∧
      (3 ≤ min 3 32 → r.mode_db_len ≤ 3 ∧ r.mode_db_len ≤ 32) ∧
      (3 < 3 → 3 < r.mode_db_len)) ∧
    (∃ r, get_dsscomp_display_mode_db capping_driver (detached_device 0) 7 (fun _ => {}) 3
        = some r ∧
      r.ret = -((19 : Nat) : Int) ∧ (0 < 19 → r.ret < 0) ∧
      r.mode_db_len = 3 ∧ r.mode_db = fun _ => {}) :=
  ⟨(get_dsscomp_display_mode_db_bounds capping_driver (detached_device 0) 0 (fun _ => {})
      3).2.1 3 (fun i => { raw := i + 1 }) rfl (by decide),
   (get_dsscomp_display_mode_db_bounds capping_driver (detached_device 0) 7 (fun _ => {})
      3).2.2 19 rfl⟩

/-- C18, counterexample: a driver that reports five modes to a caller that
asked for three. The call succeeds (returns 0), reports 5 in `*mode_db_len`,
more than the caller's maximum of 3, and has written the entries 3 and 4 of
the caller's table: the function does not clamp the count it gets back. -/
theorem get_dsscomp_display_mode_db_trusts_driver :
    (get_dsscomp_display_mode_db five_mode_driver (detached_device 0) 0 (fun _ => {}) 3).map
        (fun r => (r.ret, r.mode_db_len, r.mode_db 3, r.mode_db 4))
      = some (0, 5, { raw := 4 }, { raw := 5 }) ∧
    ¬ (5 ≤ 3) := by
  decide

/-- C19, evaluation: a session whose driver descriptor is 5. The first
`close_dsscomp` closes descriptor 5 and stores 0 as the handle; the second
call finds `fd >= 0` again and closes descriptor 0. -/
theorem close_dsscomp_twice_closes_descriptor_zero :
    (detached_device 0).dsscomp.fd = 5 ∧
    (close_dsscomp (detached_device 0)).2 = [5] ∧
    (close_dsscomp (detached_device 0)).1.dsscomp.fd = 0 ∧
    (close_dsscomp (close_dsscomp (detached_device 0)).1).2 = [0] ∧
    (close_dsscomp (close_dsscomp (detached_device 0)).1).1.dsscomp.fd = 0 := by
  decide

/-! ## Theorems on `decide_dss_wb_capture_mode` -/

/-- Rounding to the nearest integer does not go below the floor. -/
lemma floor_le_round_half_even (t : ℚ) : ⌊t⌋ ≤ round_half_even t := by
  unfold round_half_even
  split_ifs <;> omega

/-- Rounding to the nearest integer goes at most one above the floor. -/
lemma round_half_even_le (t : ℚ) : round_half_even t ≤ ⌊t⌋ + 1 := by
  unfold round_half_even
  split_ifs <;> omega

/-- The number 1 is a `float`. -/
lemma round_binary32_one : round_binary32 1 = 1 := by
  have h1 : round_half_even ((1 : ℚ) / 2 ^ ((0 : ℤ) - 23)) = 8388608 := by
    have : (1 : ℚ) / 2 ^ ((0 : ℤ) - 23) = ((8388608 : ℤ) : ℚ) := by norm_num
    rw [this]
    unfold round_half_even
    simp
  unfold round_binary32 round_binary32_pos
  rw [if_pos one_pos, Int.log_one_right, h1]
  norm_num


/-- A positive number rounds to a positive `float`. -/
lemma round_binary32_pos_pos (q : ℚ) (hq : 0 < q) : 0 < round_binary32_pos q := by
  unfold round_binary32_pos
  have hulp : (0 : ℚ) < 2 ^ (Int.log 2 q - 23) := zpow_pos (by norm_num) _
  have hlog : (2 : ℚ) ^ Int.log 2 q ≤ q := by
    have h := Int.zpow_log_le_self (by norm_num : 1 < 2) hq
    simpa using h
  have hle : (2 : ℚ) ^ (Int.log 2 q - 23) ≤ 2 ^ Int.log 2 q :=
    zpow_le_zpow_right₀ (by norm_num) (by omega)
  have ht : (1 : ℚ) ≤ q / 2 ^ (Int.log 2 q - 23) := by
    rw [le_div_iff₀ hulp, one_mul]
    exact le_trans hle hlog
  have hfl : (1 : ℤ) ≤ ⌊q / 2 ^ (Int.log 2 q - 23)⌋ := by
    rw [Int.le_floor]
    simpa using ht
  have hr : (1 : ℤ) ≤ round_half_even (q / 2 ^ (Int.log 2 q - 23)) :=
    le_trans hfl (floor_le_round_half_even _)
  have hrq : (0 : ℚ) < (round_half_even (q / 2 ^ (Int.log 2 q - 23)) : ℚ) := by
    have : (1 : ℚ) ≤ (round_half_even (q / 2 ^ (Int.log 2 q - 23)) : ℚ) := by exact_mod_cast hr
    linarith
  exact mul_pos hrq hulp

/-- A positive number below 1 rounds to a `float` that is at most 1. -/
lemma round_binary32_pos_le_one (q : ℚ) (hq : 0 < q) (h1 : q < 1) :
    round_binary32_pos q ≤ 1 := by
  unfold round_binary32_pos
  have hulp : (0 : ℚ) < 2 ^ (Int.log 2 q - 23) := zpow_pos (by norm_num) _
  have hlog : (2 : ℚ) ^ Int.log 2 q ≤ q := by
    have h := Int.zpow_log_le_self (by norm_num : 1 < 2) hq
    simpa using h
  have hlt : q < (2 : ℚ) ^ (Int.log 2 q + 1) := by
    have h := Int.lt_zpow_succ_log_self (by norm_num : 1 < 2) q
    simpa using h
  have hneg : Int.log 2 q < 0 := by
    by_contra hc
    have h0 : (0 : ℤ) ≤ Int.log 2 q := by omega
    have : (1 : ℚ) ≤ 2 ^ Int.log 2 q := one_le_zpow₀ (by norm_num) h0
    linarith
  have hsplit : (2 : ℚ) ^ (Int.log 2 q + 1) = 2 ^ (24 : ℤ) * 2 ^ (Int.log 2 q - 23) := by
    rw [← zpow_add₀ (by norm_num : (2 : ℚ) ≠ 0)]
    congr 1
    omega
  have ht : q / 2 ^ (Int.log 2 q - 23) < ((16777216 : ℤ) : ℚ) := by
    rw [div_lt_iff₀ hulp]
    calc q < 2 ^ (Int.log 2 q + 1) := hlt
      _ = 2 ^ (24 : ℤ) * 2 ^ (Int.log 2 q - 23) := hsplit
      _ = ((16777216 : ℤ) : ℚ) * 2 ^ (Int.log 2 q - 23) := by norm_num
  have hfl : ⌊q / 2 ^ (Int.log 2 q - 23)⌋ < 16777216 := Int.floor_lt.mpr ht
  have hr : round_half_even (q / 2 ^ (Int.log 2 q - 23)) ≤ 16777216 :=
    le_trans (round_half_even_le _) (by omega)
  have hrq : (round_half_even (q / 2 ^ (Int.log 2 q - 23)) : ℚ) ≤ 2 ^ (24 : ℤ) := by
    have : (round_half_even (q / 2 ^ (Int.log 2 q - 23)) : ℚ) ≤ ((16777216 : ℤ) : ℚ) := by
      exact_mod_cast hr
    calc (round_half_even (q / 2 ^ (Int.log 2 q - 23)) : ℚ) ≤ ((16777216 : ℤ) : ℚ) := this
      _ = 2 ^ (24 : ℤ) := by norm_num
  calc (round_half_even (q / 2 ^ (Int.log 2 q - 23)) : ℚ) * 2 ^ (Int.log 2 q - 23)
      ≤ 2 ^ (24 : ℤ) * 2 ^ (Int.log 2 q - 23) :=
        mul_le_mul_of_nonneg_right hrq (le_of_lt hulp)
    _ = 2 ^ (Int.log 2 q + 1) := hsplit.symm
    _ ≤ 2 ^ (0 : ℤ) := zpow_le_zpow_right₀ (by norm_num) (by omega)
    _ = 1 := by norm_num

/-- A number that is at most 1 rounds to a `float` that is at most 1. -/
lemma round_binary32_le_one (q : ℚ) (h1 : q ≤ 1) : round_binary32 q ≤ 1 := by
  rcases lt_trichotomy q 0 with hneg | hzero | hpos
  · unfold round_binary32
    rw [if_neg (not_lt.mpr (le_of_lt hneg)), if_pos hneg]
    have := round_binary32_pos_pos (-q) (by linarith)
    linarith
  · unfold round_binary32
    rw [hzero]
    simp
  · rcases eq_or_lt_of_le h1 with heq | hlt
    · rw [heq]
      exact le_of_eq round_binary32_one
    · unfold round_binary32
      rw [if_pos hpos]
      exact round_binary32_pos_le_one q hpos hlt

/-- Rounding keeps a positive number positive. -/
lemma round_binary32_pos_of_pos (q : ℚ) (hq : 0 < q) : 0 < round_binary32 q := by
  unfold round_binary32
  rw [if_pos hq]
  exact round_binary32_pos_pos q hq


/-- The quotient `(float) n / n` of a positive integer by itself is exactly 1. -/
lemma binary32_div_self (n : Nat) (hn : 0 < n) :
    binary32.div (binary32.of_uint32 n) (binary32.of_uint32 n) = binary32.finite 1 := by
  have hpos : 0 < round_binary32 (n : ℚ) :=
    round_binary32_pos_of_pos _ (by exact_mod_cast hn)
  simp only [binary32.of_uint32, binary32.div, if_neg (ne_of_gt hpos),
    div_self (ne_of_gt hpos), round_binary32_one]

/-- C16: for every `src_xres`, `src_yres`, `dst_xres`, `dst_yres`,
`decide_dss_wb_capture_mode` returns the memory-to-memory mode
(`OMAP_WB_MEM2MEM_MODE`); the result does not depend on any argument. -/
theorem decide_dss_wb_capture_mode_forced (src_xres src_yres dst_xres dst_yres : Nat) :
    decide_dss_wb_capture_mode src_xres src_yres dst_xres dst_yres
      = omap_writeback_mode.OMAP_WB_MEM2MEM_MODE ∧
    ∀ a b c d : Nat, decide_dss_wb_capture_mode a b c d
      = decide_dss_wb_capture_mode src_xres src_yres dst_xres dst_yres :=
  ⟨rfl, fun _ _ _ _ => rfl⟩

/-- C17: with the override left out, `decide_dss_wb_capture_mode(x, y, x, y)`
(identity scale, `x > 0` and `y > 0`) yields the Capture mode: the computed
decision, both scale factors being exactly 1, trips none of the
upscale-ceiling (1.0), downscale-floor (0.5) and aspect-tolerance (0.15)
rejections. -/
theorem computed_wb_capture_mode_identity (x y : Nat) (hx : 0 < x) (hy : 0 < y) :
    computed_wb_capture_mode x y x y = omap_writeback_mode.OMAP_WB_CAPTURE_MODE := by
  have ht : 0 < round_binary32 (15 / 100) := round_binary32_pos_of_pos _ (by norm_num)
  have ho : round_binary32 (1 - round_binary32 (15 / 100)) ≤ 1 :=
    round_binary32_le_one _ (by linarith)
  have hm : round_binary32 (1 * round_binary32 (1 - round_binary32 (15 / 100))) ≤ 1 :=
    round_binary32_le_one _ (by linarith)
  unfold computed_wb_capture_mode
  simp only [binary32_div_self x hx, binary32_div_self y hy]
  simp only [WB_CAPTURE_MAX_UPSCALE, WB_CAPTURE_MAX_DOWNSCALE, WB_ASPECT_RATIO_TOLERANCE,
    binary32.gt, binary32.lt, binary32.mul, binary32.sub]
  have h1 : ¬ ((1 : ℚ) < 1) := lt_irrefl _
  have h2 : ¬ ((1 : ℚ) < 1 / 2) := by norm_num
  have h3 : ¬ ((1 : ℚ) < round_binary32 (1 * round_binary32 (1 - round_binary32 (15 / 100)))) :=
    not_lt.mpr hm
  simp only [h1, h2, h3, decide_False, Bool.or_self, Bool.false_eq_true, if_false]

/-- C17, witness: a 1920x1080 source written back at 1920x1080. -/
theorem computed_wb_capture_mode_identity_witness :
    computed_wb_capture_mode 1920 1080 1920 1080 = omap_writeback_mode.OMAP_WB_CAPTURE_MODE :=
  computed_wb_capture_mode_identity 1920 1080 (by decide) (by decide)

/-! ## Monotonicity of `can_dss_scale` in the destination width -/

/-- C21: `can_dss_scale` is monotone in the destination width. For fixed
`src_w`, `src_h`, `dst_h`, `is_2d`, display, limits (with non-zero decimation
and downscale factors) and `pclk`, and for `dst_w <= dst_w2` such that
`dst_w2 * 4` and `dst_w2 * fclk`, with `fclk` the effective clock the code
compares with, do not exceed `2^32 - 1`: if `can_dss_scale` accepts `dst_w`
then it accepts `dst_w2`. -/
theorem can_dss_scale_mono_dst_w (hwc_dev : omap_hwc_device)
    (src_w src_h dst_w dst_w2 dst_h : Nat) (is_2d : Bool) (dis : dsscomp_display_info)
    (pclk : Nat)
    (hx : xdecim_of hwc_dev.dsscomp.limits is_2d ≠ 0)
    (hy : ydecim_of hwc_dev.dsscomp.limits is_2d ≠ 0)
    (hmd : hwc_dev.dsscomp.limits.max_downscale ≠ 0)
    (hle : dst_w ≤ dst_w2)
    (o1 : dst_w2 * 4 < UINT32_MOD)
    (o2 : dst_w2 * effective_fclk hwc_dev.dsscomp.limits src_w pclk < UINT32_MOD)
    (h : can_dss_scale hwc_dev src_w src_h dst_w dst_h is_2d dis pclk = some true) :
    can_dss_scale hwc_dev src_w src_h dst_w2 dst_h is_2d dis pclk = some true := by
  rw [can_dss_scale_eq _ _ _ _ _ _ _ _ hx hy] at h ⊢
  by_cases he : dis.channel ≠ OMAP_DSS_CHANNEL_DIGIT ∧ dst_w < hwc_dev.dsscomp.limits.min_width
  · rw [if_pos he] at h
    exact absurd h (by simp)
  have he2 : ¬ (dis.channel ≠ OMAP_DSS_CHANNEL_DIGIT ∧
      dst_w2 < hwc_dev.dsscomp.limits.min_width) :=
    fun hc => he ⟨hc.1, lt_of_le_of_lt hle hc.2⟩
  rw [if_neg he] at h
  rw [if_neg he2]
  by_cases hv : dst_h < src_h / 4
  · rw [if_pos hv] at h
    exact absurd h (by simp)
  rw [if_neg hv] at h ⊢
  by_cases hm : mul32 dst_h hwc_dev.dsscomp.limits.max_downscale
      < ceilDiv src_h (ydecim_of hwc_dev.dsscomp.limits is_2d)
  · rw [if_pos hm] at h
    exact absurd h (by simp)
  rw [if_neg hm] at h ⊢
  by_cases hp : pclk = 0
  · rw [if_pos hp] at h ⊢
    simp only [udiv, if_neg hmd, Option.some.injEq, Bool.not_eq_true', decide_eq_false_iff_not]
      at h ⊢
    exact fun hc => h (lt_of_le_of_lt hle hc)
  rw [if_neg hp] at h ⊢
  by_cases hw : mul32 dst_w 4 < src_w
  · rw [if_pos hw] at h
    exact absurd h (by simp)
  have hw2 : ¬ mul32 dst_w2 4 < src_w := by
    rw [mul32_of_lt _ _ o1]
    have h1 : src_w ≤ mul32 dst_w 4 := Nat.le_of_not_lt hw
    have h2 : mul32 dst_w 4 ≤ dst_w * 4 := mul32_le dst_w 4
    omega
  rw [if_neg hw] at h
  rw [if_neg hw2]
  by_cases hf : mul32 dst_w (effective_fclk hwc_dev.dsscomp.limits src_w pclk)
      < mul32 (ceilDiv src_w (xdecim_of hwc_dev.dsscomp.limits is_2d)) pclk
  · rw [if_pos hf] at h
    exact absurd h (by simp)
  have hf2 : ¬ mul32 dst_w2 (effective_fclk hwc_dev.dsscomp.limits src_w pclk)
      < mul32 (ceilDiv src_w (xdecim_of hwc_dev.dsscomp.limits is_2d)) pclk := by
    rw [mul32_of_lt _ _ o2]
    have h1 : mul32 (ceilDiv src_w (xdecim_of hwc_dev.dsscomp.limits is_2d)) pclk
        ≤ mul32 dst_w (effective_fclk hwc_dev.dsscomp.limits src_w pclk) :=
      Nat.le_of_not_lt hf
    have h2 : mul32 dst_w (effective_fclk hwc_dev.dsscomp.limits src_w pclk)
        ≤ dst_w * effective_fclk hwc_dev.dsscomp.limits src_w pclk := mul32_le _ _
    have h3 : dst_w * effective_fclk hwc_dev.dsscomp.limits src_w pclk
        ≤ dst_w2 * effective_fclk hwc_dev.dsscomp.limits src_w pclk :=
      Nat.mul_le_mul_right _ hle
    omega
  rw [if_neg hf2]

/-- C21, witness: a 1280x720 layer on a 74.25 MHz TV mode is accepted 640 wide,
hence 800 wide. -/
theorem can_dss_scale_mono_dst_w_witness :
    can_dss_scale (device_with_limits { scenario_limits with fclk := 186000000 })
      1280 720 800 360 false tv_info 74250 = some true :=
  can_dss_scale_mono_dst_w (device_with_limits { scenario_limits with fclk := 186000000 })
    1280 720 640 800 360 false tv_info 74250 (by decide) (by decide) (by decide) (by decide)
    (by decide) (by decide) (by decide)

end hwc
